import Mathlib

/-!
Shallow embedding of the Mirrow compiler core
(`packages/core/src`: `compiler/lexer.ts`, `compiler/template.ts`,
`compiler/parser.ts`, `compiler/compiler.ts`, `data/attribute-spec.ts`,
`data/codeblocks.ts`, `data/svg-attributes.ts`, `data/keywords.ts`, and the
`compile` entry point of `index.ts`), together with theorems settling the
specification claims about it.

Conventions used throughout:
* JavaScript strings are Lean `String`s (all inputs of interest are ASCII).
* JavaScript numbers produced by `Number(...)` on the lexer's numeric-token
  grammar are modelled by `JsNum`, an exact decimal representation; its
  `toString` agrees with JavaScript's decimal formatting on that grammar.
* Thrown `LexerError` / `ParserError` / `Error` values become the
  `CompileError` sum carried in `Except`.
* The source's unbounded loops and the parser's re-tokenisation recursion
  are given an explicit fuel parameter; exhausting it yields the artificial
  `CompileError.fuel`, which never occurs for the fuel bounds supplied by
  `compile`.
-/

namespace Mirrow

/-! ### Small string utilities mirroring the JavaScript primitives used -/

/-- JavaScript `String.prototype.toLowerCase` restricted to ASCII. -/
def toLowerStr (s : String) : String :=
  String.mk (s.data.map Char.toLower)

/-- Whitespace characters trimmed by `String.prototype.trim` that can occur
in this pipeline's inputs. -/
def isTrimWs (c : Char) : Bool :=
  c = ' ' || c = '\t' || c = '\n' || c = '\r'

/-- JavaScript `String.prototype.trim` (ASCII whitespace). -/
def trimStr (s : String) : String :=
  String.mk ((s.data.dropWhile isTrimWs).reverse.dropWhile isTrimWs |>.reverse)

/-- `value.slice(1, -1)`: drop the first and last character. -/
def sliceInner (s : String) : String :=
  String.mk (s.data.drop 1 |>.dropLast)

/-- Check whether `pat` occurs at the head of `l`. -/
def listStartsWith : List Char → List Char → Bool
  | _, [] => true
  | [], _ :: _ => false
  | c :: cs, p :: ps => c = p && listStartsWith cs ps

/-- JavaScript `String.prototype.replaceAll(pat, "")` (deletion of every
occurrence of `pat`); with an empty pattern the string is unchanged, as in
JavaScript when the replacement is empty. -/
def replaceAllGo (pat : List Char) : Nat → List Char → List Char
  | _, [] => []
  | 0, l => l -- fuel guard; unreachable when the fuel covers the length
  | fuel + 1, c :: cs =>
    if pat ≠ [] ∧ listStartsWith (c :: cs) pat then
      replaceAllGo pat fuel ((c :: cs).drop pat.length)
    else
      c :: replaceAllGo pat fuel cs

def replaceAllChars (pat l : List Char) : List Char :=
  replaceAllGo pat l.length l

/-- JavaScript `s.replaceAll(pat, "")`. -/
def replaceAllStr (s pat : String) : String :=
  String.mk (replaceAllChars pat.data s.data)

/-- Substring test (used only in theorem statements about compiled output). -/
def strContains (hay pat : String) : Bool :=
  let rec go : List Char → Bool
    | [] => listStartsWith [] pat.data
    | c :: cs => listStartsWith (c :: cs) pat.data || go cs
  go hay.data

/-- `list.join(sep)` for strings. -/
def joinSep (sep : String) : List String → String
  | [] => ""
  | [s] => s
  | s :: rest => s ++ sep ++ joinSep sep rest

/-- `"  ".repeat(depth)`-style repetition. -/
def repeatStr (s : String) : Nat → String
  | 0 => ""
  | n + 1 => s ++ repeatStr s n

/-- Split on `/\r?\n/` as JavaScript `content.split(/\r?\n/)` does. -/
def splitLinesChars : List Char → List (List Char)
  | [] => [[]]
  | '\r' :: '\n' :: rest =>
    [] :: splitLinesChars rest
  | '\n' :: rest =>
    [] :: splitLinesChars rest
  | c :: rest =>
    match splitLinesChars rest with
    | [] => [[c]]
    | l :: ls => (c :: l) :: ls

def splitLines (s : String) : List String :=
  (splitLinesChars s.data).map String.mk

/-! ### JavaScript numbers restricted to the lexer's numeric literals

The lexer's `readNumber` only produces strings matching
`-? digits* ('.' digits*)?` with at least one digit. `Number(...)` on such a
string is an exact decimal (for the magnitudes the DSL uses), and
`String(...)` of the result prints the normalized decimal. `JsNum` stores
sign, mantissa and decimal-fraction length in normalized form. -/

structure JsNum where
  neg : Bool
  mant : Nat
  fexp : Nat
  deriving DecidableEq, Repr

/-- Drop trailing fractional zero digits (the loop of `normalize`). -/
def JsNum.normLoop : Nat → Nat → Nat × Nat
  | mant, 0 => (mant, 0)
  | mant, fexp + 1 =>
    if mant % 10 = 0 then JsNum.normLoop (mant / 10) fexp
    else (mant, fexp + 1)

/-- Normalize: no trailing fractional zeros; `-0` collapses to `0`. -/
def JsNum.normalize : JsNum → JsNum
  | ⟨neg, mant, fexp⟩ =>
    if mant = 0 then ⟨false, 0, 0⟩
    else
      let (m, f) := JsNum.normLoop mant fexp
      ⟨neg, m, f⟩

def digitVal (c : Char) : Nat := c.toNat - '0'.toNat

def natOfDigits (ds : List Char) : Nat :=
  ds.foldl (fun acc c => acc * 10 + digitVal c) 0

/-- `Number(raw)` for a string produced by the lexer's `readNumber`. -/
def jsNumOfLexed (raw : String) : JsNum :=
  let cs := raw.data
  let neg := listStartsWith cs ['-']
  let cs := if neg then cs.drop 1 else cs
  let intPart := cs.takeWhile (fun c => c ≠ '.')
  let fracPart := (cs.dropWhile (fun c => c ≠ '.')).drop 1
  JsNum.normalize ⟨neg, natOfDigits (intPart ++ fracPart), fracPart.length⟩

/-- Decimal digits of `n`, most significant first. -/
def natDigits (n : Nat) : List Char :=
  (Nat.toDigits 10 n)

/-- JavaScript `String(x)` for a normalized `JsNum`. -/
def jsNumToString (n : JsNum) : String :=
  let sign := if n.neg then "-" else ""
  if n.fexp = 0 then
    sign ++ String.mk (natDigits n.mant)
  else
    let ds := natDigits n.mant
    let ds := if ds.length < n.fexp + 1 then
        List.replicate (n.fexp + 1 - ds.length) '0' ++ ds
      else ds
    let intDigits := ds.take (ds.length - n.fexp)
    let fracDigits := ds.drop (ds.length - n.fexp)
    sign ++ String.mk intDigits ++ "." ++ String.mk fracDigits

/-! ### Tokens, positions, errors (`lexer.ts`) -/

/-- `SourcePosition` of `ast.ts` / the lexer's `{line, column}` pairs. -/
structure SourcePosition where
  line : Nat
  column : Nat
  deriving DecidableEq, Repr

/-- `TokenType` enumeration of `lexer.ts`. -/
inductive TokenType where
  | STRING | NUMBER | IDENTIFIER | DOLLAR | AT | COLON | EQUALS | COMMA
  | LEFT_PAREN | RIGHT_PAREN | LEFT_BRACKET | RIGHT_BRACKET
  | LEFT_BRACE | RIGHT_BRACE | SINGLE_LINE_COMMENT | MULTI_LINE_COMMENT
  | WHITESPACE | EOF | UNKNOWN | BLOCK
  deriving DecidableEq, Repr

/-- The string value of each `TokenType` enum member (used in one parser
error message). -/
def TokenType.name : TokenType → String
  | .STRING => "STRING"
  | .NUMBER => "NUMBER"
  | .IDENTIFIER => "IDENTIFIER"
  | .DOLLAR => "DOLLAR"
  | .AT => "AT"
  | .COLON => "COLON"
  | .EQUALS => "EQUALS"
  | .COMMA => "COMMA"
  | .LEFT_PAREN => "LEFT_PAREN"
  | .RIGHT_PAREN => "RIGHT_PAREN"
  | .LEFT_BRACKET => "LEFT_BRACKET"
  | .RIGHT_BRACKET => "RIGHT_BRACKET"
  | .LEFT_BRACE => "LEFT_BRACE"
  | .RIGHT_BRACE => "RIGHT_BRACE"
  | .SINGLE_LINE_COMMENT => "SINGLE_LINE_COMMENT"
  | .MULTI_LINE_COMMENT => "MULTI_LINE_COMMENT"
  | .WHITESPACE => "WHITESPACE"
  | .EOF => "EOF"
  | .UNKNOWN => "UNKNOWN"
  | .BLOCK => "BLOCK"

structure Token where
  type : TokenType
  value : String
  position : SourcePosition
  deriving DecidableEq, Repr

/-- Failures of the pipeline: `LexerError`, `ParserError`, the plain
`Error`s thrown by `compiler.ts`, plus the artificial fuel marker. -/
inductive CompileError where
  | lexError (message : String) (position : SourcePosition)
  | parseError (message : String) (position : SourcePosition)
  | codegenError (message : String)
  | fuel
  deriving DecidableEq, Repr

/-! ### `data/codeblocks.ts` -/

/-- `normalizeCssStateName`: strip leading `:` characters, lowercase. -/
def normalizeCssStateName (name : String) : String :=
  toLowerStr (String.mk (name.data.dropWhile (fun c => c = ':')))

/-- `normalizeJsEventName`: strip one leading `on` (case-insensitive),
lowercase. -/
def normalizeJsEventName (name : String) : String :=
  let cs := name.data
  let stripped :=
    match cs with
    | o :: n :: rest =>
      if o.toLower = 'o' ∧ n.toLower = 'n' then rest else cs
    | _ => cs
  toLowerStr (String.mk stripped)

def CSS_STATES : List String :=
  ["active", "any-link", "autofill", "blank", "checked", "current",
   "default", "defined", "disabled", "empty", "enabled", "first-child",
   "first-of-type", "focus", "focus-visible", "focus-within", "fullscreen",
   "future", "has", "host", "host-context", "hover", "indeterminate",
   "in-range", "invalid", "is", "lang", "last-child", "last-of-type",
   "link", "local-link", "not", "nth-child", "nth-last-child",
   "nth-last-of-type", "nth-of-type", "only-child", "only-of-type",
   "optional", "out-of-range", "past", "placeholder-shown", "playing",
   "paused", "read-only", "read-write", "required", "root", "scope",
   "target", "target-within", "user-invalid", "user-valid", "valid",
   "visited", "where", "dir"]

def JS_EVENTS : List String :=
  ["abort", "animationcancel", "animationend", "animationiteration",
   "animationstart", "auxclick", "beforeinput", "blur", "canplay",
   "canplaythrough", "change", "click", "close", "compositionend",
   "compositionstart", "compositionupdate", "contextmenu", "copy", "cut",
   "dblclick", "drag", "dragend", "dragenter", "dragleave", "dragover",
   "dragstart", "drop", "durationchange", "ended", "error", "focus",
   "focusin", "focusout", "formdata", "input", "invalid", "keydown",
   "keypress", "keyup", "load", "loadeddata", "loadedmetadata",
   "loadstart", "mousedown", "mouseenter", "mouseleave", "mousemove",
   "mouseout", "mouseover", "mouseup", "paste", "pause", "play",
   "playing", "pointercancel", "pointerdown", "pointerenter",
   "pointerleave", "pointermove", "pointerout", "pointerover",
   "pointerup", "progress", "ratechange", "reset", "resize", "scroll",
   "securitypolicyviolation", "seeked", "seeking", "select",
   "slotchange", "stalled", "submit", "suspend", "timeupdate", "toggle",
   "touchcancel", "touchend", "touchmove", "touchstart",
   "transitioncancel", "transitionend", "transitionrun",
   "transitionstart", "volumechange", "waiting", "wheel"]

def cssStateLookup : List String := CSS_STATES.map normalizeCssStateName

def jsEventLookup : List String := JS_EVENTS.map normalizeJsEventName

def CSS_UNIT_SUFFIXES : List String :=
  ["%",
   -- Absolute length units
   "cm", "mm", "Q", "in", "pc", "pt", "px",
   -- Font-relative length units
   "em", "ex", "ch", "ic", "rem", "cap", "lh", "rlh",
   -- Viewport-percentage length units
   "vw", "vh", "vi", "vb", "vmin", "vmax", "svw", "svh", "svi", "svb",
   "svmin", "svmax", "lvw", "lvh", "lvi", "lvb", "lvmin", "lvmax",
   "dvw", "dvh", "dvi", "dvb", "dvmin", "dvmax",
   -- Container query length units
   "cqw", "cqh", "cqi", "cqb", "cqmin", "cqmax",
   -- Angle units
   "deg", "grad", "rad", "turn",
   -- Time units
   "s", "ms",
   -- Frequency units
   "Hz", "kHz",
   -- Resolution units
   "dpi", "dpcm", "dppx", "x",
   -- Flexible fractions
   "fr"]

def cssExceptions : List String := ["infinite", "none", "auto"]

/-- The codeblock kinds recognised by `isSpecialCodeblock` (the
`specialCodeblocks` set is `{"style", "script"}`). -/
inductive SpecialKind where
  | style
  | script
  deriving DecidableEq, Repr

def SpecialKind.name : SpecialKind → String
  | .style => "style"
  | .script => "script"

def isCssState (name : String) : Bool :=
  cssStateLookup.contains (normalizeCssStateName name)

def isCssException (name : String) : Bool :=
  cssExceptions.contains name

def isJsEvent (name : String) : Bool :=
  jsEventLookup.contains (normalizeJsEventName name)

/-- `isSpecialCodeblock`: `{valid: true, kind}` becomes `some kind`. -/
def isSpecialCodeblock (name : String) : Option SpecialKind :=
  if toLowerStr name = "style" then some .style
  else if toLowerStr name = "script" then some .script
  else none

/-! ### `data/attribute-spec.ts`

Attribute values flowing through code generation (`unknown` in the source:
a JavaScript number, string, boolean or array) are modelled by `NormVal`.
The four `AttributeSpec` interface variants are flattened into one
structure whose `length`/`itemTypes` fields are only meaningful for
`type = tuple`, mirroring the discriminated union. `produce` returns the
entries of the produced record in insertion order; an entry's `none` value
models a JavaScript `undefined`, which `renderAttributes` skips. -/

inductive NormVal where
  | num (n : JsNum)
  | str (s : String)
  | bool (b : Bool)
  | arr (vs : List NormVal)

-- JavaScript `String(x)` on a `NormVal` (arrays join with `,`).
mutual

def jsToString : NormVal → String
  | .num n => jsNumToString n
  | .str s => s
  | .bool b => if b then "true" else "false"
  | .arr vs => joinSep "," (jsToStringList vs)

def jsToStringList : List NormVal → List String
  | [] => []
  | v :: vs => jsToString v :: jsToStringList vs

end

/-- `typeof value === "number"` -/
def isNumberVal : NormVal → Bool
  | .num _ => true
  | _ => false

/-- `typeof value === "string"` -/
def isStringVal : NormVal → Bool
  | .str _ => true
  | _ => false

/-- `typeof value === "boolean"` -/
def isBooleanVal : NormVal → Bool
  | .bool _ => true
  | _ => false

/-- Array indexing as used by `produce` destructuring; `none` models the
`undefined` a JavaScript destructuring of a too-short array yields. -/
def arrGetVal : NormVal → Nat → Option NormVal
  | .arr vs, i => vs.get? i
  | _, _ => none

inductive AttrType where
  | number | string | boolean | tuple
  deriving DecidableEq, Repr

inductive TupleItemType where
  | number | string | identifier
  deriving DecidableEq, Repr

structure AttributeSpec where
  name : String
  type : AttrType
  required : Bool := false
  length : Nat := 0
  itemTypes : Option (List TupleItemType) := none
  validator : Option (NormVal → Bool) := none
  produce : Option (NormVal → List (String × Option NormVal)) := none

/-- `numberAttr`: default validator is `typeof value === "number"`; the
catalog's option overrides only ever set `required` and `produce`. -/
def numberAttr (name : String) (required : Bool := false)
    (produce : Option (NormVal → List (String × Option NormVal)) := none) :
    AttributeSpec :=
  { name, type := .number, required, validator := some isNumberVal, produce }

def stringAttr (name : String) (required : Bool := false)
    (produce : Option (NormVal → List (String × Option NormVal)) := none) :
    AttributeSpec :=
  { name, type := .string, required, validator := some isStringVal, produce }

def booleanAttr (name : String) (required : Bool := false)
    (produce : Option (NormVal → List (String × Option NormVal)) := none) :
    AttributeSpec :=
  { name, type := .boolean, required, validator := some isBooleanVal,
    produce }

/-- The default validator `tupleAttr` attaches when no explicit validator
is given and the item types are absent or all `number`: an array of exactly
`length` numbers. -/
def defaultTupleValidator (length : Nat) : NormVal → Bool
  | .arr vs => vs.length = length && vs.all isNumberVal
  | _ => false

/-- `tupleAttr`: `itemTypes` is kept only when non-empty
(`normalizedTypes`); the default all-numbers validator is attached exactly
when no validator was supplied and the normalized types are absent or all
`number`. -/
def tupleAttr (name : String) (length : Nat)
    (itemTypes : List TupleItemType := [])
    (required : Bool := false)
    (validator : Option (NormVal → Bool) := none)
    (produce : Option (NormVal → List (String × Option NormVal)) := none) :
    AttributeSpec :=
  let normalizedTypes := if itemTypes.length > 0 then some itemTypes else none
  let validator :=
    if validator.isNone ∧
        (normalizedTypes.isNone ∨ itemTypes.all (· = .number)) then
      some (defaultTupleValidator length)
    else validator
  { name, type := .tuple, required, length, itemTypes := normalizedTypes,
    validator, produce }

def produceNumberPair (firstKey secondKey : String) :
    NormVal → List (String × Option NormVal) :=
  fun values =>
    [(firstKey, arrGetVal values 0), (secondKey, arrGetVal values 1)]

def produceScalar (key : String) : NormVal → List (String × Option NormVal) :=
  fun value => [(key, some value)]

/-! ### `data/svg-attributes.ts` -/

def attributeNameMap : List (String × String) :=
  [("alignmentBaseline", "alignment-baseline"),
   ("autoReverse", "autoreverse"),
   ("baselineShift", "baseline-shift"),
   ("clipPath", "clip-path"),
   ("clipRule", "clip-rule"),
   ("colorInterpolation", "color-interpolation"),
   ("colorInterpolationFilters", "color-interpolation-filters"),
   ("colorRendering", "color-rendering"),
   ("crossOrigin", "crossorigin"),
   ("dominantBaseline", "dominant-baseline"),
   ("fetchPriority", "fetchpriority"),
   ("fillOpacity", "fill-opacity"),
   ("fillRule", "fill-rule"),
   ("floodColor", "flood-color"),
   ("floodOpacity", "flood-opacity"),
   ("fontFamily", "font-family"),
   ("fontFeatureSettings", "font-feature-settings"),
   ("fontSize", "font-size"),
   ("fontSizeAdjust", "font-size-adjust"),
   ("fontStretch", "font-stretch"),
   ("fontStyle", "font-style"),
   ("fontVariant", "font-variant"),
   ("fontVariationSettings", "font-variation-settings"),
   ("fontWeight", "font-weight"),
   ("glyphOrientationHorizontal", "glyph-orientation-horizontal"),
   ("glyphOrientationVertical", "glyph-orientation-vertical"),
   ("imageRendering", "image-rendering"),
   ("letterSpacing", "letter-spacing"),
   ("lightingColor", "lighting-color"),
   ("markerEnd", "marker-end"),
   ("markerMid", "marker-mid"),
   ("markerStart", "marker-start"),
   ("maskType", "mask-type"),
   ("paintOrder", "paint-order"),
   ("pointerEvents", "pointer-events"),
   ("referrerPolicy", "referrerpolicy"),
   ("shapeRendering", "shape-rendering"),
   ("stopColor", "stop-color"),
   ("stopOpacity", "stop-opacity"),
   ("strokeDasharray", "stroke-dasharray"),
   ("strokeDashoffset", "stroke-dashoffset"),
   ("strokeLinecap", "stroke-linecap"),
   ("strokeLinejoin", "stroke-linejoin"),
   ("strokeMiterlimit", "stroke-miterlimit"),
   ("strokeOpacity", "stroke-opacity"),
   ("strokeWidth", "stroke-width"),
   ("tabIndex", "tabindex"),
   ("textAnchor", "text-anchor"),
   ("textRendering", "text-rendering"),
   ("unicodeBidi", "unicode-bidi"),
   ("vectorEffect", "vector-effect"),
   ("wordSpacing", "word-spacing"),
   ("writingMode", "writing-mode"),
   ("xlinkHref", "xlink:href"),
   ("xmlBase", "xml:base"),
   ("xmlLang", "xml:lang"),
   ("xmlSpace", "xml:space"),
   ("xmlnsXlink", "xmlns:xlink")]

/-- `applyNameMapping`: tuple specs and specs that already carry a
`produce` are returned unchanged; otherwise a mapped name becomes a
renaming `produce` (the source's three per-type branches all build the same
`{[target]: value}` record). -/
def applyNameMapping (spec : AttributeSpec) : AttributeSpec :=
  if spec.type = .tuple ∨ spec.produce.isSome then spec
  else
    match (attributeNameMap.find? (fun p => p.1 = spec.name)).map Prod.snd with
    | none => spec
    | some target => { spec with produce := some fun v => [(target, some v)] }

def createNumberAttr (name : String) (required : Bool := false)
    (produce : Option (NormVal → List (String × Option NormVal)) := none) :
    AttributeSpec :=
  applyNameMapping (numberAttr name required produce)

def createStringAttr (name : String) (required : Bool := false)
    (produce : Option (NormVal → List (String × Option NormVal)) := none) :
    AttributeSpec :=
  applyNameMapping (stringAttr name required produce)

def createBooleanAttr (name : String) (required : Bool := false)
    (produce : Option (NormVal → List (String × Option NormVal)) := none) :
    AttributeSpec :=
  applyNameMapping (booleanAttr name required produce)

def createTupleAttr (name : String) (length : Nat)
    (itemTypes : List TupleItemType := [])
    (required : Bool := false)
    (produce : Option (NormVal → List (String × Option NormVal)) := none) :
    AttributeSpec :=
  tupleAttr name length itemTypes required none produce

def produceNumberTriple (firstKey secondKey thirdKey : String) :
    NormVal → List (String × Option NormVal) :=
  fun values =>
    [(firstKey, arrGetVal values 0), (secondKey, arrGetVal values 1),
     (thirdKey, arrGetVal values 2)]

/-- `combineAttributes`: later groups overwrite earlier specs of the same
name, but the position of the first occurrence is kept (JavaScript `Map`
insertion-order semantics). -/
def combineAttributes (groups : List (List AttributeSpec)) :
    List AttributeSpec :=
  let all := groups.flatten
  let rec dedup : List AttributeSpec → List String → List AttributeSpec
    | [], _ => []
    | spec :: rest, seen =>
      if seen.contains spec.name then dedup rest seen
      else
        let last := ((spec :: rest).filter (fun s => s.name = spec.name)).getLast?
        (last.getD spec) :: dedup rest (spec.name :: seen)
  dedup all []

def coreAttributes : List AttributeSpec :=
  [createStringAttr "id",
   createStringAttr "class",
   createStringAttr "style",
   createStringAttr "lang",
   createStringAttr "xmlBase",
   createStringAttr "xmlLang",
   createStringAttr "xmlSpace",
   createNumberAttr "tabIndex"]

def conditionalProcessingAttributes : List AttributeSpec :=
  [createStringAttr "requiredExtensions",
   createStringAttr "requiredFeatures",
   createStringAttr "systemLanguage"]

def referencingAttributes : List AttributeSpec :=
  [createStringAttr "href",
   createStringAttr "xlinkHref"]

def paintAttributes : List AttributeSpec :=
  [createStringAttr "fill",
   createNumberAttr "fillOpacity",
   createStringAttr "fillRule",
   createStringAttr "stroke",
   createNumberAttr "strokeWidth",
   createNumberAttr "strokeOpacity",
   createStringAttr "strokeLinecap",
   createStringAttr "strokeLinejoin",
   createNumberAttr "strokeMiterlimit",
   createStringAttr "strokeDasharray",
   createNumberAttr "strokeDashoffset"]

def graphicalEffectAttributes : List AttributeSpec :=
  [createNumberAttr "opacity",
   createStringAttr "transform",
   createStringAttr "filter",
   createStringAttr "mask",
   createStringAttr "clipPath",
   createStringAttr "clipRule",
   createStringAttr "cursor",
   createStringAttr "pointerEvents",
   createStringAttr "display",
   createStringAttr "visibility",
   createStringAttr "color",
   createStringAttr "colorInterpolation",
   createStringAttr "colorInterpolationFilters",
   createStringAttr "colorRendering",
   createStringAttr "imageRendering",
   createStringAttr "vectorEffect",
   createStringAttr "paintOrder"]

def markerReferenceAttributes : List AttributeSpec :=
  [createStringAttr "markerStart",
   createStringAttr "markerMid",
   createStringAttr "markerEnd"]

def graphicsElementAttributes : List AttributeSpec :=
  combineAttributes
    [coreAttributes, conditionalProcessingAttributes, paintAttributes,
     graphicalEffectAttributes, markerReferenceAttributes]

def textLayoutAttributes : List AttributeSpec :=
  [createStringAttr "textAnchor",
   createStringAttr "alignmentBaseline",
   createStringAttr "baselineShift",
   createStringAttr "dominantBaseline",
   createStringAttr "letterSpacing",
   createStringAttr "wordSpacing",
   createStringAttr "kerning",
   createStringAttr "direction",
   createStringAttr "unicodeBidi",
   createStringAttr "writingMode",
   createStringAttr "glyphOrientationVertical",
   createStringAttr "glyphOrientationHorizontal",
   createStringAttr "textRendering",
   createStringAttr "fontFamily",
   createNumberAttr "fontSize",
   createNumberAttr "fontSizeAdjust",
   createStringAttr "fontStretch",
   createStringAttr "fontStyle",
   createStringAttr "fontVariant",
   createStringAttr "fontWeight",
   createStringAttr "fontFeatureSettings",
   createStringAttr "fontVariationSettings"]

def textPositioningAttributes : List AttributeSpec :=
  [createTupleAttr "at" 2 [] false (some (produceNumberPair "x" "y")),
   createNumberAttr "dx",
   createNumberAttr "dy",
   createStringAttr "rotate",
   createNumberAttr "textLength",
   createStringAttr "lengthAdjust"]

def textContainerAttributes : List AttributeSpec :=
  combineAttributes [graphicsElementAttributes, textLayoutAttributes]

def textElementAttributes : List AttributeSpec :=
  combineAttributes [textContainerAttributes, textPositioningAttributes]

def viewBoxAttributes : List AttributeSpec :=
  [createStringAttr "viewBox",
   createStringAttr "preserveAspectRatio"]

def animationTimingAttributes : List AttributeSpec :=
  [createStringAttr "begin",
   createStringAttr "dur",
   createStringAttr "end",
   createStringAttr "min",
   createStringAttr "max",
   createStringAttr "restart",
   createNumberAttr "repeat" false
     (some fun value => [("repeatCount", some value)]),
   createStringAttr "repeatDur",
   createStringAttr "fill"]

def animationAttributeTargeting : List AttributeSpec :=
  [createStringAttr "prop" false
     (some fun value => [("attributeName", some value)]),
   createStringAttr "attributeType"]

def animationValueAttributes : List AttributeSpec :=
  [createStringAttr "calcMode",
   createStringAttr "values",
   createStringAttr "keyTimes",
   createStringAttr "keySplines",
   createNumberAttr "from",
   createNumberAttr "to",
   createNumberAttr "by",
   createStringAttr "additive",
   createStringAttr "accumulate"]

def animationPlaybackAttributes : List AttributeSpec :=
  [createNumberAttr "accelerate",
   createNumberAttr "decelerate",
   createBooleanAttr "autoReverse"]

def animationCoreAttributes : List AttributeSpec :=
  combineAttributes
    [coreAttributes, referencingAttributes, animationTimingAttributes,
     animationAttributeTargeting]

def filterPrimitiveBaseAttributes : List AttributeSpec :=
  combineAttributes
    [coreAttributes,
     [createTupleAttr "at" 2 [] false (some (produceNumberPair "x" "y")),
      createTupleAttr "size" 2 [] false
        (some (produceNumberPair "width" "height")),
      createStringAttr "result"]]

def filterPrimitiveInputAttributes : List AttributeSpec :=
  [createStringAttr "in"]

def filterPrimitiveSecondInputAttributes : List AttributeSpec :=
  [createStringAttr "in2"]

def gradientBaseAttributes : List AttributeSpec :=
  combineAttributes
    [coreAttributes, conditionalProcessingAttributes, referencingAttributes,
     [createStringAttr "gradientUnits",
      createStringAttr "gradientTransform",
      createStringAttr "spreadMethod"]]

def patternBaseAttributes : List AttributeSpec :=
  combineAttributes
    [coreAttributes, conditionalProcessingAttributes, referencingAttributes,
     [createTupleAttr "at" 2 [] false (some (produceNumberPair "x" "y")),
      createTupleAttr "size" 2 [] false
        (some (produceNumberPair "width" "height")),
      createStringAttr "patternUnits",
      createStringAttr "patternContentUnits",
      createStringAttr "patternTransform",
      createStringAttr "viewBox",
      createStringAttr "preserveAspectRatio"]]

def markerBaseAttributes : List AttributeSpec :=
  combineAttributes
    [graphicsElementAttributes,
     [createNumberAttr "refX",
      createNumberAttr "refY",
      createNumberAttr "markerWidth",
      createNumberAttr "markerHeight",
      createStringAttr "markerUnits",
      createStringAttr "orient",
      createStringAttr "viewBox",
      createStringAttr "preserveAspectRatio"]]

def maskBaseAttributes : List AttributeSpec :=
  combineAttributes
    [coreAttributes, conditionalProcessingAttributes,
     [createStringAttr "maskUnits",
      createStringAttr "maskContentUnits",
      createStringAttr "maskType",
      createTupleAttr "at" 2 [] false (some (produceNumberPair "x" "y")),
      createTupleAttr "size" 2 [] false
        (some (produceNumberPair "width" "height"))]]

def clipPathBaseAttributes : List AttributeSpec :=
  combineAttributes
    [coreAttributes, conditionalProcessingAttributes,
     [createStringAttr "clipPathUnits",
      createStringAttr "transform"]]

def filterContainerAttributes : List AttributeSpec :=
  combineAttributes
    [coreAttributes, conditionalProcessingAttributes, referencingAttributes,
     [createTupleAttr "at" 2 [] false (some (produceNumberPair "x" "y")),
      createTupleAttr "size" 2 [] false
        (some (produceNumberPair "width" "height")),
      createStringAttr "filterUnits",
      createStringAttr "primitiveUnits",
      createNumberAttr "filterRes"]]

def componentTransferFunctionAttributes : List AttributeSpec :=
  combineAttributes
    [coreAttributes,
     [createStringAttr "type",
      createStringAttr "tableValues",
      createNumberAttr "slope",
      createNumberAttr "intercept",
      createNumberAttr "amplitude",
      createNumberAttr "exponent",
      createNumberAttr "offset"]]

def pathDataAttribute : AttributeSpec :=
  stringAttr "data" true (some fun value => [("d", some value)])

/-- `svg`'s `box` tuple renders a `viewBox` template string. -/
def produceViewBox : NormVal → List (String × Option NormVal) :=
  fun values =>
    let at' := fun i =>
      ((arrGetVal values i).map jsToString).getD "undefined"
    [("viewBox",
      some (.str (at' 0 ++ " " ++ at' 1 ++ " " ++ at' 2 ++ " " ++ at' 3)))]

/-- `svg`'s `preserve` tuple renders a `preserveAspectRatio` template. -/
def producePreserve : NormVal → List (String × Option NormVal) :=
  fun values =>
    let at' := fun i =>
      ((arrGetVal values i).map jsToString).getD "undefined"
    [("preserveAspectRatio", some (.str (at' 0 ++ " " ++ at' 1)))]

/-- `svgKeywordAttributes` record, keyed by element name. -/
def svgKeywordAttributes (name : String) : Option (List AttributeSpec) :=
  if name = "a" then some (combineAttributes
    [graphicsElementAttributes, referencingAttributes,
     [createStringAttr "target",
      createStringAttr "download",
      createStringAttr "rel",
      createStringAttr "ping",
      createStringAttr "referrerPolicy",
      createStringAttr "hreflang",
      createStringAttr "type"]])
  else if name = "animate" then some (combineAttributes
    [animationCoreAttributes, animationValueAttributes,
     animationPlaybackAttributes])
  else if name = "animateMotion" then some (combineAttributes
    [animationCoreAttributes, animationValueAttributes,
     animationPlaybackAttributes,
     [createStringAttr "path",
      createStringAttr "keyPoints",
      createStringAttr "rotate"]])
  else if name = "animateTransform" then some (combineAttributes
    [animationCoreAttributes, animationValueAttributes,
     animationPlaybackAttributes,
     [createStringAttr "type"]])
  else if name = "circle" then some (combineAttributes
    [graphicsElementAttributes,
     [createTupleAttr "at" 2 [] false (some (produceNumberPair "cx" "cy")),
      createNumberAttr "r" true (some (produceScalar "r")),
      createNumberAttr "pathLength",
      createBooleanAttr "filled"]])
  else if name = "clipPath" then some clipPathBaseAttributes
  else if name = "defs" then some (combineAttributes
    [coreAttributes, conditionalProcessingAttributes])
  else if name = "desc" then some coreAttributes
  else if name = "discard" then some (combineAttributes
    [coreAttributes, referencingAttributes,
     [createStringAttr "begin"]])
  else if name = "ellipse" then some (combineAttributes
    [graphicsElementAttributes,
     [createTupleAttr "at" 2 [] false (some (produceNumberPair "cx" "cy")),
      createTupleAttr "radius" 2 [] true
        (some (produceNumberPair "rx" "ry")),
      createNumberAttr "pathLength"]])
  else if name = "feBlend" then some (combineAttributes
    [filterPrimitiveBaseAttributes, filterPrimitiveInputAttributes,
     filterPrimitiveSecondInputAttributes,
     [createStringAttr "mode"]])
  else if name = "feColorMatrix" then some (combineAttributes
    [filterPrimitiveBaseAttributes, filterPrimitiveInputAttributes,
     [createStringAttr "type", createStringAttr "values"]])
  else if name = "feComponentTransfer" then some (combineAttributes
    [filterPrimitiveBaseAttributes, filterPrimitiveInputAttributes])
  else if name = "feComposite" then some (combineAttributes
    [filterPrimitiveBaseAttributes, filterPrimitiveInputAttributes,
     filterPrimitiveSecondInputAttributes,
     [createStringAttr "operator",
      createNumberAttr "k1",
      createNumberAttr "k2",
      createNumberAttr "k3",
      createNumberAttr "k4"]])
  else if name = "feConvolveMatrix" then some (combineAttributes
    [filterPrimitiveBaseAttributes, filterPrimitiveInputAttributes,
     [createStringAttr "order",
      createStringAttr "kernelMatrix",
      createNumberAttr "divisor",
      createNumberAttr "bias",
      createNumberAttr "targetX",
      createNumberAttr "targetY",
      createStringAttr "edgeMode",
      createStringAttr "kernelUnitLength",
      createBooleanAttr "preserveAlpha"]])
  else if name = "feDiffuseLighting" then some (combineAttributes
    [filterPrimitiveBaseAttributes, filterPrimitiveInputAttributes,
     [createNumberAttr "surfaceScale",
      createNumberAttr "diffuseConstant",
      createStringAttr "kernelUnitLength",
      createStringAttr "lightingColor"]])
  else if name = "feDisplacementMap" then some (combineAttributes
    [filterPrimitiveBaseAttributes, filterPrimitiveInputAttributes,
     filterPrimitiveSecondInputAttributes,
     [createNumberAttr "scale",
      createStringAttr "xChannelSelector",
      createStringAttr "yChannelSelector"]])
  else if name = "feDistantLight" then some (combineAttributes
    [coreAttributes,
     [createNumberAttr "azimuth",
      createNumberAttr "elevation"]])
  else if name = "feDropShadow" then some (combineAttributes
    [filterPrimitiveBaseAttributes, filterPrimitiveInputAttributes,
     [createNumberAttr "dx",
      createNumberAttr "dy",
      createStringAttr "stdDeviation",
      createStringAttr "floodColor",
      createNumberAttr "floodOpacity"]])
  else if name = "feFlood" then some (combineAttributes
    [filterPrimitiveBaseAttributes,
     [createStringAttr "floodColor",
      createNumberAttr "floodOpacity"]])
  else if name = "feFuncA" ∨ name = "feFuncB" ∨ name = "feFuncG" ∨
      name = "feFuncR" then
    some componentTransferFunctionAttributes
  else if name = "feGaussianBlur" then some (combineAttributes
    [filterPrimitiveBaseAttributes, filterPrimitiveInputAttributes,
     [createStringAttr "stdDeviation", createStringAttr "edgeMode"]])
  else if name = "feImage" then some (combineAttributes
    [filterPrimitiveBaseAttributes, referencingAttributes,
     [createStringAttr "preserveAspectRatio",
      createStringAttr "crossOrigin"]])
  else if name = "feMerge" then some filterPrimitiveBaseAttributes
  else if name = "feMergeNode" then some (combineAttributes
    [coreAttributes, filterPrimitiveInputAttributes])
  else if name = "feMorphology" then some (combineAttributes
    [filterPrimitiveBaseAttributes, filterPrimitiveInputAttributes,
     [createStringAttr "radius", createStringAttr "operator"]])
  else if name = "feOffset" then some (combineAttributes
    [filterPrimitiveBaseAttributes, filterPrimitiveInputAttributes,
     [createNumberAttr "dx", createNumberAttr "dy"]])
  else if name = "fePointLight" then some (combineAttributes
    [coreAttributes,
     [createTupleAttr "at" 3 [] false
        (some (produceNumberTriple "x" "y" "z"))]])
  else if name = "feSpecularLighting" then some (combineAttributes
    [filterPrimitiveBaseAttributes, filterPrimitiveInputAttributes,
     [createNumberAttr "surfaceScale",
      createNumberAttr "specularConstant",
      createNumberAttr "specularExponent",
      createStringAttr "kernelUnitLength",
      createStringAttr "lightingColor"]])
  else if name = "feSpotLight" then some (combineAttributes
    [coreAttributes,
     [createTupleAttr "at" 3 [] false
        (some (produceNumberTriple "x" "y" "z")),
      createTupleAttr "pointsAt" 3 [] false
        (some (produceNumberTriple "pointsAtX" "pointsAtY" "pointsAtZ")),
      createNumberAttr "specularExponent",
      createNumberAttr "limitingConeAngle"]])
  else if name = "feTile" then some (combineAttributes
    [filterPrimitiveBaseAttributes, filterPrimitiveInputAttributes])
  else if name = "feTurbulence" then some (combineAttributes
    [filterPrimitiveBaseAttributes,
     [createStringAttr "baseFrequency",
      createNumberAttr "numOctaves",
      createNumberAttr "seed",
      createStringAttr "stitchTiles",
      createStringAttr "type"]])
  else if name = "filter" then some filterContainerAttributes
  else if name = "foreignObject" then some (combineAttributes
    [graphicsElementAttributes,
     [createTupleAttr "at" 2 [] false (some (produceNumberPair "x" "y")),
      createTupleAttr "size" 2 [] false
        (some (produceNumberPair "width" "height"))]])
  else if name = "g" then some graphicsElementAttributes
  else if name = "image" then some (combineAttributes
    [graphicsElementAttributes, referencingAttributes,
     [createTupleAttr "at" 2 [] false (some (produceNumberPair "x" "y")),
      createTupleAttr "size" 2 [] false
        (some (produceNumberPair "width" "height")),
      createStringAttr "preserveAspectRatio",
      createStringAttr "crossOrigin",
      createStringAttr "referrerPolicy"]])
  else if name = "line" then some (combineAttributes
    [graphicsElementAttributes,
     [createTupleAttr "from" 2 [] true
        (some (produceNumberPair "x1" "y1")),
      createTupleAttr "to" 2 [] true
        (some (produceNumberPair "x2" "y2")),
      createNumberAttr "pathLength",
      createStringAttr "stroke" true]])
  else if name = "linearGradient" then some (combineAttributes
    [gradientBaseAttributes,
     [createTupleAttr "from" 2 [] false
        (some (produceNumberPair "x1" "y1")),
      createTupleAttr "to" 2 [] false
        (some (produceNumberPair "x2" "y2"))]])
  else if name = "marker" then some markerBaseAttributes
  else if name = "mask" then some maskBaseAttributes
  else if name = "metadata" then some coreAttributes
  else if name = "mpath" then some (combineAttributes
    [coreAttributes, referencingAttributes])
  else if name = "path" then some (combineAttributes
    [graphicsElementAttributes,
     [pathDataAttribute,
      createStringAttr "d",
      createNumberAttr "pathLength"]])
  else if name = "pattern" then some patternBaseAttributes
  else if name = "polygon" then some (combineAttributes
    [graphicsElementAttributes,
     [createStringAttr "points" true,
      createNumberAttr "pathLength"]])
  else if name = "polyline" then some (combineAttributes
    [graphicsElementAttributes,
     [createStringAttr "points" true,
      createNumberAttr "pathLength",
      createStringAttr "stroke" true]])
  else if name = "radialGradient" then some (combineAttributes
    [gradientBaseAttributes,
     [createTupleAttr "at" 2 [] false (some (produceNumberPair "cx" "cy")),
      createNumberAttr "r",
      createTupleAttr "focus" 2 [] false
        (some (produceNumberPair "fx" "fy")),
      createNumberAttr "fr"]])
  else if name = "rect" then some (combineAttributes
    [graphicsElementAttributes,
     [createTupleAttr "at" 2 [] false (some (produceNumberPair "x" "y")),
      createTupleAttr "size" 2 [] true
        (some (produceNumberPair "width" "height")),
      createTupleAttr "radius" 2 [] false
        (some (produceNumberPair "rx" "ry")),
      createNumberAttr "pathLength"]])
  else if name = "script" then some (combineAttributes
    [coreAttributes, referencingAttributes,
     [createStringAttr "type",
      createStringAttr "crossOrigin",
      createStringAttr "referrerPolicy"]])
  else if name = "set" then some (combineAttributes
    [animationCoreAttributes, [createStringAttr "to"]])
  else if name = "stop" then some (combineAttributes
    [coreAttributes,
     [createNumberAttr "offset" true,
      createStringAttr "stopColor",
      createNumberAttr "stopOpacity"]])
  else if name = "style" then some (combineAttributes
    [coreAttributes,
     [createStringAttr "type",
      createStringAttr "media",
      createStringAttr "title",
      createStringAttr "nonce"]])
  else if name = "switch" then some graphicsElementAttributes
  else if name = "svg" then some (combineAttributes
    [graphicsElementAttributes,
     [createTupleAttr "size" 2 [] false
        (some (produceNumberPair "width" "height")),
      createTupleAttr "box" 4 [] false (some produceViewBox),
      createTupleAttr "preserve" 2 [.identifier, .identifier] false
        (some producePreserve),
      createTupleAttr "at" 2 [] false (some (produceNumberPair "x" "y")),
      createStringAttr "xmlns",
      createStringAttr "xmlnsXlink",
      createStringAttr "version",
      createStringAttr "baseProfile",
      createStringAttr "contentScriptType",
      createStringAttr "contentStyleType"]])
  else if name = "symbol" then some (combineAttributes
    [graphicsElementAttributes, viewBoxAttributes,
     [createTupleAttr "ref" 2 [] false
        (some (produceNumberPair "refX" "refY"))]])
  else if name = "text" then some textElementAttributes
  else if name = "textPath" then some (combineAttributes
    [textContainerAttributes, referencingAttributes,
     [createStringAttr "startOffset",
      createStringAttr "method",
      createStringAttr "spacing",
      createStringAttr "side"]])
  else if name = "title" then some coreAttributes
  else if name = "tspan" then some textElementAttributes
  else if name = "use" then some (combineAttributes
    [graphicsElementAttributes, referencingAttributes,
     [createTupleAttr "at" 2 [] false (some (produceNumberPair "x" "y")),
      createTupleAttr "size" 2 [] false
        (some (produceNumberPair "width" "height"))]])
  else if name = "view" then some (combineAttributes
    [coreAttributes,
     [createStringAttr "viewBox",
      createStringAttr "preserveAspectRatio",
      createStringAttr "viewTarget",
      createStringAttr "zoomAndPan"]])
  else none

/-! ### `data/keywords.ts` -/

/-- `Keyword` class. The `attributeMap` built in the constructor keeps the
last spec for a duplicated name; since `combineAttributes` already removed
duplicates, `getAttributeSpec` searches from the back to mirror that. -/
structure Keyword where
  name : String
  attributes : List AttributeSpec
  allowedChildren : List String
  allowsAnyChild : Bool
  allowsTextContent : Bool

def Keyword.getAttributeSpec (kw : Keyword) (name : String) :
    Option AttributeSpec :=
  kw.attributes.reverse.find? (fun spec => spec.name = name)

def Keyword.getAttributeSpecs (kw : Keyword) : List AttributeSpec :=
  kw.attributes

def Keyword.hasAllowedChild (kw : Keyword) (child : String) : Bool :=
  kw.allowsAnyChild || kw.allowedChildren.contains child

def Keyword.canContainText (kw : Keyword) : Bool :=
  kw.allowsTextContent

def svgKeywords : List String :=
  ["a", "animate", "animateMotion", "animateTransform", "circle",
   "clipPath", "defs", "desc", "discard", "ellipse", "feBlend",
   "feColorMatrix", "feComponentTransfer", "feComposite",
   "feConvolveMatrix", "feDiffuseLighting", "feDisplacementMap",
   "feDistantLight", "feDropShadow", "feFlood", "feFuncA", "feFuncB",
   "feFuncG", "feFuncR", "feGaussianBlur", "feImage", "feMerge",
   "feMergeNode", "feMorphology", "feOffset", "fePointLight",
   "feSpecularLighting", "feSpotLight", "feTile", "feTurbulence",
   "filter", "foreignObject", "g", "image", "line", "linearGradient",
   "marker", "mask", "metadata", "mpath", "path", "pattern", "polygon",
   "polyline", "radialGradient", "rect", "script", "set", "stop",
   "style", "switch", "svg", "symbol", "text", "textPath", "title",
   "tspan", "use", "view"]

/-- `combineChildren`: flatten and keep first occurrences
(JavaScript `Array.from(new Set(...))`). -/
def combineChildren (groups : List (List String)) : List String :=
  (groups.flatten).foldl
    (fun acc c => if acc.contains c then acc else acc ++ [c]) []

def animationElements : List String :=
  ["animate", "animateMotion", "animateTransform", "set", "discard"]

def descriptiveElements : List String :=
  ["desc", "metadata", "title"]

def geometryElements : List String :=
  ["circle", "ellipse", "line", "path", "polygon", "polyline", "rect"]

def textContainerElements : List String := ["text"]

def textSpanElements : List String := ["tspan", "textPath"]

def textContentElements : List String := ["text", "tspan", "textPath"]

def filterPrimitiveElements : List String :=
  ["feBlend", "feColorMatrix", "feComponentTransfer", "feComposite",
   "feConvolveMatrix", "feDiffuseLighting", "feDisplacementMap",
   "feDropShadow", "feFlood", "feGaussianBlur", "feImage", "feMerge",
   "feMorphology", "feOffset", "feSpecularLighting", "feTile",
   "feTurbulence"]

def componentTransferFunctions : List String :=
  ["feFuncA", "feFuncB", "feFuncG", "feFuncR"]

def lightSourceElements : List String :=
  ["feDistantLight", "fePointLight", "feSpotLight"]

/-- `svgKeywordChildren` record: `(allowAnyChild, children)`. Names absent
from the record get the defaults `(false, [])`. -/
def svgKeywordChildren (name : String) : Bool × List String :=
  if name = "a" then
    (false, combineChildren
      [animationElements, descriptiveElements, geometryElements,
       textContainerElements, textSpanElements,
       ["image", "use", "g", "svg", "switch", "foreignObject"]])
  else if name = "animateMotion" then (false, ["mpath"])
  else if name = "circle" then
    (false, combineChildren [animationElements, descriptiveElements])
  else if name = "clipPath" then
    (false, combineChildren
      [animationElements, descriptiveElements, geometryElements,
       textContainerElements, ["use", "image", "g"]])
  else if name = "defs" then
    (false, combineChildren
      [animationElements, descriptiveElements, geometryElements,
       textContainerElements,
       ["style", "script", "image", "use", "a", "svg", "symbol", "g",
        "clipPath", "mask", "pattern", "marker", "linearGradient",
        "radialGradient", "filter", "foreignObject"]])
  else if name = "ellipse" then
    (false, combineChildren [animationElements, descriptiveElements])
  else if name = "feBlend" then
    (false, combineChildren [animationElements, descriptiveElements])
  else if name = "feColorMatrix" then
    (false, combineChildren [animationElements, descriptiveElements])
  else if name = "feComponentTransfer" then
    (false, combineChildren
      [animationElements, descriptiveElements, componentTransferFunctions])
  else if name = "feComposite" then
    (false, combineChildren [animationElements, descriptiveElements])
  else if name = "feConvolveMatrix" then
    (false, combineChildren [animationElements, descriptiveElements])
  else if name = "feDiffuseLighting" then
    (false, combineChildren
      [animationElements, descriptiveElements, lightSourceElements])
  else if name = "feDisplacementMap" then
    (false, combineChildren [animationElements, descriptiveElements])
  else if name = "feDropShadow" then
    (false, combineChildren [animationElements, descriptiveElements])
  else if name = "feFlood" then
    (false, combineChildren [animationElements, descriptiveElements])
  else if name = "feFuncA" ∨ name = "feFuncB" ∨ name = "feFuncG" ∨
      name = "feFuncR" then (false, [])
  else if name = "feGaussianBlur" then
    (false, combineChildren [animationElements, descriptiveElements])
  else if name = "feImage" then
    (false, combineChildren [animationElements, descriptiveElements])
  else if name = "feMerge" then
    (false, combineChildren
      [animationElements, descriptiveElements, ["feMergeNode"]])
  else if name = "feMergeNode" then (false, [])
  else if name = "feMorphology" then
    (false, combineChildren [animationElements, descriptiveElements])
  else if name = "feOffset" then
    (false, combineChildren [animationElements, descriptiveElements])
  else if name = "fePointLight" then (false, [])
  else if name = "feSpecularLighting" then
    (false, combineChildren
      [animationElements, descriptiveElements, lightSourceElements])
  else if name = "feSpotLight" then (false, [])
  else if name = "feTile" then
    (false, combineChildren [animationElements, descriptiveElements])
  else if name = "feTurbulence" then
    (false, combineChildren [animationElements, descriptiveElements])
  else if name = "filter" then
    (false, combineChildren
      [animationElements, descriptiveElements, filterPrimitiveElements])
  else if name = "foreignObject" then (true, [])
  else if name = "g" then
    (false, combineChildren
      [animationElements, descriptiveElements, geometryElements,
       textContainerElements,
       ["image", "use", "g", "svg", "switch", "a", "foreignObject"]])
  else if name = "image" then
    (false, combineChildren [animationElements, descriptiveElements])
  else if name = "line" then
    (false, combineChildren [animationElements, descriptiveElements])
  else if name = "linearGradient" then
    (false, combineChildren
      [animationElements, descriptiveElements, ["stop"]])
  else if name = "marker" then
    (false, combineChildren
      [animationElements, descriptiveElements, geometryElements,
       textContainerElements,
       ["path", "image", "use", "g", "svg", "a"]])
  else if name = "mask" then
    (false, combineChildren
      [animationElements, descriptiveElements, geometryElements,
       textContainerElements,
       ["image", "use", "g", "svg", "a", "foreignObject"]])
  else if name = "metadata" then (true, [])
  else if name = "path" then
    (false, combineChildren [animationElements, descriptiveElements])
  else if name = "pattern" then
    (false, combineChildren
      [animationElements, descriptiveElements, geometryElements,
       textContainerElements,
       ["image", "use", "g", "svg", "a", "foreignObject"]])
  else if name = "polygon" then
    (false, combineChildren [animationElements, descriptiveElements])
  else if name = "polyline" then
    (false, combineChildren [animationElements, descriptiveElements])
  else if name = "radialGradient" then
    (false, combineChildren
      [animationElements, descriptiveElements, ["stop"]])
  else if name = "rect" then
    (false, combineChildren [animationElements, descriptiveElements])
  else if name = "stop" then
    (false, combineChildren [animationElements, descriptiveElements])
  else if name = "switch" then
    (false, combineChildren
      [animationElements, descriptiveElements, geometryElements,
       textContainerElements,
       ["image", "use", "g", "svg", "a", "foreignObject"]])
  else if name = "svg" then
    (false, combineChildren
      [animationElements, descriptiveElements, geometryElements,
       textContainerElements,
       ["image", "use", "g", "svg", "a", "symbol", "marker", "mask",
        "pattern", "clipPath", "defs", "linearGradient", "radialGradient",
        "filter", "foreignObject", "style", "script", "switch", "view"]])
  else if name = "symbol" then
    (false, combineChildren
      [animationElements, descriptiveElements, geometryElements,
       textContainerElements,
       ["image", "use", "g", "svg", "a", "view", "defs"]])
  else if name = "text" then
    (false, combineChildren
      [animationElements, descriptiveElements, ["a", "tspan", "textPath"]])
  else if name = "textPath" then
    (false, combineChildren
      [animationElements, descriptiveElements, ["a", "tspan"]])
  else if name = "tspan" then
    (false, combineChildren
      [animationElements, descriptiveElements, ["a", "tspan"]])
  else if name = "use" then
    (false, combineChildren [animationElements, descriptiveElements])
  else (false, [])

/-- `getSvgKeywords().get(name)`: the lazily built store contains exactly
one `Keyword` per entry of `svgKeywords`, assembled from the attribute and
children tables; its construction takes no external input, so the memoized
global is modelled as this pure lookup. -/
def getSvgKeyword (name : String) : Option Keyword :=
  if svgKeywords.contains name then
    let (allowAnyChild, children) := svgKeywordChildren name
    some
      { name
        attributes := (svgKeywordAttributes name).getD []
        allowedChildren := children
        allowsAnyChild := allowAnyChild
        allowsTextContent := textContentElements.contains name }
  else none

/-! ### `compiler/ast.ts`

`LiteralValue` carries the `VariableReference` constructor that
`compiler.ts` imports and handles; the parser in `parser.ts` never
constructs it. The `Set<CssStateDirective>` / `Set<JsEventDirective>`
fields hold distinct freshly-allocated objects, so insertion-order lists
model them. `RootNode` has only `children` — no vars block field. -/

inductive LiteralValue where
  | numberLit (value : JsNum) (raw : String) (position : SourcePosition)
  | stringLit (value : String) (position : SourcePosition)
  | identifierLit (name : String) (position : SourcePosition)
  | tupleLit (values : List LiteralValue) (position : SourcePosition)
  | variableReference (name : String) (position : SourcePosition)

def LiteralValue.position : LiteralValue → SourcePosition
  | .numberLit _ _ p => p
  | .stringLit _ p => p
  | .identifierLit _ p => p
  | .tupleLit _ p => p
  | .variableReference _ p => p

/-- The `value.type` discriminator string of each literal. -/
def LiteralValue.typeName : LiteralValue → String
  | .numberLit _ _ _ => "NumberLiteral"
  | .stringLit _ _ => "StringLiteral"
  | .identifierLit _ _ => "IdentifierLiteral"
  | .tupleLit _ _ => "TupleLiteral"
  | .variableReference _ _ => "VariableReference"

structure CssStateDirective where
  name : String
  dataId : String
  block : String
  position : SourcePosition

structure JsEventDirective where
  name : String
  dataId : String
  block : String
  position : SourcePosition

structure AttributeNode where
  name : String
  value : LiteralValue
  position : SourcePosition

mutual

inductive ElementNode where
  | mk (name : String) (attributes : List AttributeNode)
       (children : List ChildNode)
       (cssStates : List CssStateDirective)
       (jsEvents : List JsEventDirective)
       (dataId : Option String) (position : SourcePosition)

inductive ChildNode where
  | element (e : ElementNode)
  | text (value : String) (position : SourcePosition)

end

def ElementNode.name : ElementNode → String
  | .mk n _ _ _ _ _ _ => n

def ElementNode.attributes : ElementNode → List AttributeNode
  | .mk _ a _ _ _ _ _ => a

def ElementNode.children : ElementNode → List ChildNode
  | .mk _ _ c _ _ _ _ => c

def ElementNode.cssStates : ElementNode → List CssStateDirective
  | .mk _ _ _ c _ _ _ => c

def ElementNode.jsEvents : ElementNode → List JsEventDirective
  | .mk _ _ _ _ j _ _ => j

def ElementNode.dataId : ElementNode → Option String
  | .mk _ _ _ _ _ d _ => d

def ElementNode.position : ElementNode → SourcePosition
  | .mk _ _ _ _ _ _ p => p

structure RootNode where
  children : List ElementNode

structure SpecialBlock where
  style : SpecialKind
  content : String
  position : SourcePosition

/-- `VarsBlock` as `compiler.ts` consumes it (the parser never builds one
and `ast.ts` does not declare it). -/
structure VarsBlock where
  declarations : List (String × LiteralValue)

/-! ### `compiler/lexer.ts`

The `Lexer` class state is `Lex`; every method becomes a function from
`Lex` to a result paired with the updated `Lex`. The source's `while`
loops carry an explicit fuel argument; each iteration consumes at least
one input character, so any fuel exceeding the input length is enough and
`CompileError.fuel` is unreachable for the bounds `tokenize` supplies. -/

structure Lex where
  input : List Char
  position : Nat
  line : Nat
  column : Nat

def Lex.len (lex : Lex) : Nat := lex.input.length

/-- `this.input[i]` (`undefined` past the end becomes `none`). -/
def Lex.charAt (lex : Lex) (i : Nat) : Option Char := lex.input.get? i

def Lex.curr (lex : Lex) : Option Char := lex.charAt lex.position

def Lex.pos (lex : Lex) : SourcePosition := ⟨lex.line, lex.column⟩

def Lex.advance (lex : Lex) : Lex :=
  if lex.position < lex.input.length then
    if lex.charAt lex.position = some '\n' then
      { lex with line := lex.line + 1, column := 1,
                 position := lex.position + 1 }
    else
      { lex with column := lex.column + 1, position := lex.position + 1 }
  else lex

def validIdentifierTokens : List Char := ['_', '-', '#']

def isWhitespaceJs (c : Char) : Bool := c = ' ' || c = '\t' || c = '\r'

def isDigitJs (c : Char) : Bool := '0' ≤ c ∧ c ≤ '9'

def isAlphaJs (c : Char) : Bool :=
  ('a' ≤ c ∧ c ≤ 'z') ∨ ('A' ≤ c ∧ c ≤ 'Z')

/-- Escape-sequence mapping inside `readString`; unknown escapes pass the
escaped character through. -/
def escapeChar (c : Char) : Char :=
  if c = 'n' then '\n'
  else if c = 't' then '\t'
  else if c = 'r' then '\r'
  else c

def readStringLoop (quote : Char) :
    Nat → List Char → Lex → Except CompileError (List Char × Lex)
  | 0, _, _ => .error .fuel
  | fuel + 1, acc, lex =>
    if lex.position < lex.len ∧ lex.curr ≠ some quote then
      match lex.curr with
      | none => pure (acc, lex) -- `if (!char) break`; unreachable in range
      | some c =>
        if c = '\\' ∧ lex.position + 1 < lex.len then
          let next := (lex.charAt (lex.position + 1)).getD c
          readStringLoop quote fuel (acc ++ [escapeChar next])
            lex.advance.advance
        else
          readStringLoop quote fuel (acc ++ [c]) lex.advance
    else pure (acc, lex)

/-- `Lexer.readString`; callers guarantee the current character is the
opening quote. -/
def readString (fuel : Nat) (lex : Lex) :
    Except CompileError (Token × Lex) := do
  let startPosition := lex.pos
  let quote := lex.curr.getD '"'
  let lex := lex.advance
  let (value, lex) ← readStringLoop quote fuel [] lex
  if lex.position < lex.len then
    pure (⟨.STRING, String.mk value, startPosition⟩, lex.advance)
  else
    .error (.lexError "Unterminated string" startPosition)

def singleCommentLoop :
    Nat → List Char → Lex → Except CompileError (List Char × Lex)
  | 0, _, _ => .error .fuel
  | fuel + 1, acc, lex =>
    if lex.position < lex.len ∧ lex.curr ≠ some '\n' then
      match lex.curr with
      | none => pure (acc, lex)
      | some c => singleCommentLoop fuel (acc ++ [c]) lex.advance
    else pure (acc, lex)

def multiCommentLoop (startPosition : SourcePosition) :
    Nat → List Char → Lex → Except CompileError (List Char × Lex)
  | 0, _, _ => .error .fuel
  | fuel + 1, acc, lex =>
    if lex.position < lex.len then
      match lex.curr with
      | none => .error (.lexError "Unterminated multi-line comment"
          startPosition)
      | some c =>
        if c = '*' ∧ lex.position + 1 < lex.len ∧
            lex.charAt (lex.position + 1) = some '/' then
          pure (acc, lex.advance.advance)
        else
          multiCommentLoop startPosition fuel (acc ++ [c]) lex.advance
    else .error (.lexError "Unterminated multi-line comment" startPosition)

/-- `Lexer.readComment`: handles `//...`, `/*...*/` and a lone `/`. -/
def readComment (fuel : Nat) (lex : Lex) :
    Except CompileError (Token × Lex) := do
  let startPosition := lex.pos
  let lex := lex.advance
  if lex.position ≥ lex.len then
    pure (⟨.UNKNOWN, "/", startPosition⟩, lex)
  else
    match lex.curr with
    | some '/' => do
      let (value, lex) ← singleCommentLoop fuel [] lex.advance
      pure (⟨.SINGLE_LINE_COMMENT, String.mk value, startPosition⟩, lex)
    | some '*' => do
      let (value, lex) ← multiCommentLoop startPosition fuel [] lex.advance
      pure (⟨.MULTI_LINE_COMMENT, String.mk value, startPosition⟩, lex)
    | _ =>
      pure (⟨.UNKNOWN, "/", startPosition⟩, lex)

def isIdentifierChar (c : Char) : Bool :=
  isAlphaJs c || isDigitJs c || validIdentifierTokens.contains c

def readIdentifierLoop :
    Nat → List Char → Lex → List Char × Lex
  | 0, acc, lex => (acc, lex)
  | fuel + 1, acc, lex =>
    if lex.position < lex.len then
      match lex.curr with
      | none => (acc, lex)
      | some c =>
        if isIdentifierChar c then
          readIdentifierLoop fuel (acc ++ [c]) lex.advance
        else (acc, lex)
    else (acc, lex)

def readIdentifier (fuel : Nat) (lex : Lex) : Token × Lex :=
  let startPosition := lex.pos
  let (value, lex) := readIdentifierLoop fuel [] lex
  (⟨.IDENTIFIER, String.mk value, startPosition⟩, lex)

def isVarNameChar (c : Char) : Bool :=
  isAlphaJs c || isDigitJs c || c = '_' || c = '-'

def varNameLoop : Nat → List Char → Lex → List Char × Lex
  | 0, acc, lex => (acc, lex)
  | fuel + 1, acc, lex =>
    if lex.position < lex.len then
      match lex.curr with
      | none => (acc, lex)
      | some c =>
        if isVarNameChar c then varNameLoop fuel (acc ++ [c]) lex.advance
        else (acc, lex)
    else (acc, lex)

/-- `Lexer.readVariableReference`. -/
def readVariableReference (fuel : Nat) (lex : Lex) :
    Except CompileError (Token × Lex) := do
  let startPosition := lex.pos
  let lex := lex.advance
  if lex.position < lex.len then
    match lex.curr with
    | some firstChar =>
      if isAlphaJs firstChar ∨ firstChar = '_' then
        let (name, lex) := varNameLoop fuel [] lex
        pure (⟨.DOLLAR, "$" ++ String.mk name, startPosition⟩, lex)
      else
        .error (.lexError
          "Invalid variable reference: variable name must start with a letter or underscore"
          startPosition)
    | none =>
      .error (.lexError "Unexpected end of input after '$'" startPosition)
  else
    .error (.lexError "Unexpected end of input after '$'" startPosition)

def readNumberIntLoop (initialPosition : Nat) :
    Nat → List Char → Lex → List Char × Lex
  | 0, acc, lex => (acc, lex)
  | fuel + 1, acc, lex =>
    if lex.position < lex.len then
      match lex.curr with
      | none => (acc, lex)
      | some c =>
        if c = '-' ∧ initialPosition = lex.position then
          readNumberIntLoop initialPosition fuel (acc ++ [c]) lex.advance
        else if ¬ isDigitJs c then (acc, lex)
        else readNumberIntLoop initialPosition fuel (acc ++ [c]) lex.advance
    else (acc, lex)

def readNumberFracLoop : Nat → List Char → Lex → List Char × Lex
  | 0, acc, lex => (acc, lex)
  | fuel + 1, acc, lex =>
    if lex.position < lex.len then
      match lex.curr with
      | none => (acc, lex)
      | some c =>
        if ¬ isDigitJs c then (acc, lex)
        else readNumberFracLoop fuel (acc ++ [c]) lex.advance
    else (acc, lex)

/-- `Lexer.readNumber`. -/
def readNumber (fuel : Nat) (lex : Lex) : Token × Lex :=
  let startPosition := lex.pos
  let (value, lex) := readNumberIntLoop lex.position fuel [] lex
  if lex.position < lex.len ∧ lex.curr = some '.' then
    let (frac, lex) := readNumberFracLoop fuel [] lex.advance
    (⟨.NUMBER, String.mk (value ++ ['.'] ++ frac), startPosition⟩, lex)
  else
    (⟨.NUMBER, String.mk value, startPosition⟩, lex)

def skipWhitespaceLoop : Nat → List Char → Lex → List Char × Lex
  | 0, acc, lex => (acc, lex)
  | fuel + 1, acc, lex =>
    if lex.position < lex.len then
      match lex.curr with
      | none => (acc, lex)
      | some c =>
        if isWhitespaceJs c then
          skipWhitespaceLoop fuel (acc ++ [c]) lex.advance
        else (acc, lex)
    else (acc, lex)

/-- `Lexer.skipWhitespace`. -/
def skipWhitespace (fuel : Nat) (lex : Lex) : Token × Lex :=
  let startPosition := lex.pos
  let (value, lex) := skipWhitespaceLoop fuel [] lex
  (⟨.WHITESPACE, String.mk value, startPosition⟩, lex)

/-! ### `compiler/template.ts` (`readTemplateRaw`, `readBlock`) -/

mutual

/-- Main scan of `readTemplateRaw` after the opening backtick. -/
def templateLoop :
    Nat → Lex → Except CompileError Lex
  | 0, _ => .error .fuel
  | fuel + 1, lex =>
    if lex.position < lex.len then
      match lex.curr with
      | none => pure lex
      | some ch =>
        if ch = '\\' then
          let lex := lex.advance
          let lex := if lex.position < lex.len then lex.advance else lex
          templateLoop fuel lex
        else if ch = '$' ∧ lex.charAt (lex.position + 1) = some '{' then do
          let lex ← templateExprLoop fuel 1 lex.advance.advance
          templateLoop fuel lex
        else if ch = '`' then
          pure lex.advance
        else
          templateLoop fuel lex.advance
    else pure lex

/-- The `${...}` sub-expression scan of `readTemplateRaw`. -/
def templateExprLoop :
    Nat → Nat → Lex → Except CompileError Lex
  | 0, _, _ => .error .fuel
  | fuel + 1, exprDepth, lex =>
    if lex.position < lex.len ∧ exprDepth > 0 then
      match lex.curr with
      | none => pure lex
      | some c =>
        if c = '\'' ∨ c = '"' then do
          let (_, lex) ← readString fuel lex
          templateExprLoop fuel exprDepth lex
        else if c = '`' then do
          let (_, lex) ← readTemplateRaw fuel lex
          templateExprLoop fuel exprDepth lex
        else if c = '/' ∧ lex.charAt (lex.position + 1) = some '/' then do
          let (_, lex) ← readComment fuel lex
          templateExprLoop fuel exprDepth lex
        else if c = '/' ∧ lex.charAt (lex.position + 1) = some '*' then do
          let (_, lex) ← readComment fuel lex
          templateExprLoop fuel exprDepth lex
        else if c = '{' then
          templateExprLoop fuel (exprDepth + 1) lex.advance
        else if c = '}' then
          templateExprLoop fuel (exprDepth - 1) lex.advance
        else
          templateExprLoop fuel exprDepth lex.advance
    else pure lex

/-- `readTemplateRaw` of `template.ts`. -/
def readTemplateRaw (fuel : Nat) (lex : Lex) :
    Except CompileError (String × Lex) :=
  match fuel with
  | 0 => .error .fuel
  | fuel + 1 =>
    if lex.curr ≠ some '`' then
      .error (.lexError "readTemplateRaw called but current char is not `"
        lex.pos)
    else do
      let startIdx := lex.position
      let lex ← templateLoop fuel lex.advance
      if lex.position ≥ lex.len ∧
          lex.charAt (lex.position - 1) ≠ some '`' then
        .error (.lexError "Unterminated template literal" lex.pos)
      else
        pure (String.mk
          ((lex.input.drop startIdx).take (lex.position - startIdx)), lex)

end

/-- Depth-counting scan of `readBlock` after the opening brace. -/
def blockLoop (startPosition : SourcePosition) (startIdx : Nat) :
    Nat → Nat → Lex → Except CompileError (Token × Lex)
  | 0, _, _ => .error .fuel
  | fuel + 1, depth, lex =>
    if lex.position < lex.len then
      match lex.curr with
      | none => .error (.lexError "Unterminated block" startPosition)
      | some ch =>
        if ch = '"' ∨ ch = '\'' then do
          let (_, lex) ← readString fuel lex
          blockLoop startPosition startIdx fuel depth lex
        else if ch = '`' then do
          let (_, lex) ← readTemplateRaw fuel lex
          blockLoop startPosition startIdx fuel depth lex
        else if ch = '/' ∧ lex.charAt (lex.position + 1) = some '/' then do
          let (_, lex) ← readComment fuel lex
          blockLoop startPosition startIdx fuel depth lex
        else if ch = '/' ∧ lex.charAt (lex.position + 1) = some '*' then do
          let (_, lex) ← readComment fuel lex
          blockLoop startPosition startIdx fuel depth lex
        else if ch = '{' then
          blockLoop startPosition startIdx fuel (depth + 1) lex.advance
        else if ch = '}' then
          let lex := lex.advance
          if depth - 1 = 0 then
            let raw := String.mk
              ((lex.input.drop startIdx).take (lex.position - startIdx))
            pure (⟨.BLOCK, raw, startPosition⟩, lex)
          else
            blockLoop startPosition startIdx fuel (depth - 1) lex
        else
          blockLoop startPosition startIdx fuel depth lex.advance
    else .error (.lexError "Unterminated block" startPosition)

/-- `readBlock` of `template.ts`. -/
def readBlock (fuel : Nat) (lex : Lex) :
    Except CompileError (Token × Lex) :=
  let startPosition := lex.pos
  if lex.curr ≠ some '{' then
    .error (.lexError "readBlock called but current char is not a left brace"
      startPosition)
  else
    blockLoop startPosition lex.position fuel 1 lex.advance

/-! ### `Lexer.nextToken` and `tokenize` -/

def skipNewlines : Nat → Lex → Lex
  | 0, lex => lex
  | fuel + 1, lex =>
    if lex.curr = some '\n' then skipNewlines fuel lex.advance else lex

def punctToken (lex : Lex) (tt : TokenType) (value : String)
    (startPosition : SourcePosition) : Token × Lex :=
  (⟨tt, value, startPosition⟩, lex.advance)

/-- `Lexer.nextToken`: `none` models the `null` end-of-input result. -/
def nextToken (fuel : Nat) (lex : Lex) :
    Except CompileError (Option (Token × Lex)) := do
  if lex.position ≥ lex.len then
    pure none
  else
    let lex := skipNewlines fuel lex
    match lex.curr with
    | none => pure none
    | some char =>
      let startPosition := lex.pos
      if isWhitespaceJs char then
        pure (some (skipWhitespace fuel lex))
      else if char = '"' ∨ char = '\'' then
        pure (some (← readString fuel lex))
      else if isDigitJs char then
        pure (some (readNumber fuel lex))
      else if char = '-' ∧
          (match lex.charAt (lex.position + 1) with
           | some nextChar =>
             (isDigitJs nextChar ||
               (nextChar = '.' &&
                 (match lex.charAt (lex.position + 2) with
                  | some thirdChar => isDigitJs thirdChar
                  | none => false)))
           | none => false) = true then
        pure (some (readNumber fuel lex))
      else if char = '-' ∧
          (match lex.charAt (lex.position + 1) with
           | some nextChar =>
             (isAlphaJs nextChar || isDigitJs nextChar ||
               validIdentifierTokens.contains nextChar)
           | none => false) = true then
        pure (some (readIdentifier fuel lex))
      else if char = '$' then
        pure (some (← readVariableReference fuel lex))
      else if isAlphaJs char ∨ validIdentifierTokens.contains char then
        pure (some (readIdentifier fuel lex))
      else if char = '@' then
        pure (some (punctToken lex .AT "@" startPosition))
      else if char = ':' then
        pure (some (punctToken lex .COLON ":" startPosition))
      else if char = '=' then
        pure (some (punctToken lex .EQUALS "=" startPosition))
      else if char = ',' then
        pure (some (punctToken lex .COMMA "," startPosition))
      else if char = '(' then
        pure (some (punctToken lex .LEFT_PAREN "(" startPosition))
      else if char = ')' then
        pure (some (punctToken lex .RIGHT_PAREN ")" startPosition))
      else if char = '[' then
        pure (some (punctToken lex .LEFT_BRACKET "[" startPosition))
      else if char = ']' then
        pure (some (punctToken lex .RIGHT_BRACKET "]" startPosition))
      else if char = '{' then
        pure (some (← readBlock fuel lex))
      else if char = '}' then
        pure (some (punctToken lex .RIGHT_BRACE "\x7d" startPosition))
      else if char = '/' then
        pure (some (← readComment fuel lex))
      else
        pure (some (⟨.UNKNOWN, String.mk [char], startPosition⟩,
          lex.advance))

def isDiscardedToken (tt : TokenType) : Bool :=
  tt = .WHITESPACE || tt = .SINGLE_LINE_COMMENT || tt = .MULTI_LINE_COMMENT

def tokenizeLoop :
    Nat → List Token → Lex → Except CompileError (List Token × Lex)
  | 0, _, _ => .error .fuel
  | fuel + 1, acc, lex => do
    match ← nextToken fuel lex with
    | none => pure (acc, lex)
    | some (token, lex) =>
      if isDiscardedToken token.type then tokenizeLoop fuel acc lex
      else tokenizeLoop fuel (acc ++ [token]) lex

/-- `tokenize(input)`: run the lexer to exhaustion and append the `EOF`
token carrying the final position. -/
def tokenize (input : String) : Except CompileError (List Token) := do
  let lex : Lex := ⟨input.data, 0, 1, 1⟩
  let fuel := input.data.length + 2
  let (tokens, lex) ← tokenizeLoop fuel [] lex
  pure (tokens ++ [⟨.EOF, "", lex.pos⟩])

/-! ### SHA-256 (node:crypto `createHash("sha256")`)

`Parser.createDirectiveId` hashes its seed with SHA-256 and keeps the
first 16 hex characters. The standard algorithm is implemented here over
`Nat` with explicit `% 2^32` wraparound; seeds are ASCII, so bytes are the
characters' code points. -/

def w32 (x : Nat) : Nat := x % 4294967296

def rotr32 (x n : Nat) : Nat :=
  w32 ((x >>> n) ||| (x <<< (32 - n)))

def shaK : List Nat :=
  [1116352408, 1899447441, 3049323471, 3921009573,
   961987163, 1508970993, 2453635748, 2870763221,
   3624381080, 310598401, 607225278, 1426881987,
   1925078388, 2162078206, 2614888103, 3248222580,
   3835390401, 4022224774, 264347078, 604807628,
   770255983, 1249150122, 1555081692, 1996064986,
   2554220882, 2821834349, 2952996808, 3210313671,
   3336571891, 3584528711, 113926993, 338241895,
   666307205, 773529912, 1294757372, 1396182291,
   1695183700, 1986661051, 2177026350, 2456956037,
   2730485921, 2820302411, 3259730800, 3345764771,
   3516065817, 3600352804, 4094571909, 275423344,
   430227734, 506948616, 659060556, 883997877,
   958139571, 1322822218, 1537002063, 1747873779,
   1955562222, 2024104815, 2227730452, 2361852424,
   2428436474, 2756734187, 3204031479, 3329325298]

/-- Pad the byte stream per SHA-256 (`0x80`, zeros, 64-bit length). -/
def shaPad (msg : List Nat) : List Nat :=
  let len := msg.length
  let zeroCount := (64 - (len + 9) % 64) % 64
  let bitLen := len * 8
  msg ++ [128] ++ List.replicate zeroCount 0 ++
    [(bitLen >>> 56) % 256, (bitLen >>> 48) % 256, (bitLen >>> 40) % 256,
     (bitLen >>> 32) % 256, (bitLen >>> 24) % 256, (bitLen >>> 16) % 256,
     (bitLen >>> 8) % 256, bitLen % 256]

/-- Big-endian 32-bit words of a padded chunk. -/
def shaWords : List Nat → List Nat
  | b0 :: b1 :: b2 :: b3 :: rest =>
    (b0 * 16777216 + b1 * 65536 + b2 * 256 + b3) :: shaWords rest
  | _ => []

def shaSmallSigma0 (x : Nat) : Nat :=
  rotr32 x 7 ^^^ rotr32 x 18 ^^^ (x >>> 3)

def shaSmallSigma1 (x : Nat) : Nat :=
  rotr32 x 17 ^^^ rotr32 x 19 ^^^ (x >>> 10)

def shaExtend (w : List Nat) : Nat → List Nat
  | 0 => w
  | n + 1 =>
    let w := shaExtend w n
    let i := w.length
    if i < 64 then
      let v := w32 (w.getD (i - 16) 0 + shaSmallSigma0 (w.getD (i - 15) 0) +
        w.getD (i - 7) 0 + shaSmallSigma1 (w.getD (i - 2) 0))
      w ++ [v]
    else w

def shaBigSigma0 (x : Nat) : Nat :=
  rotr32 x 2 ^^^ rotr32 x 13 ^^^ rotr32 x 22

def shaBigSigma1 (x : Nat) : Nat :=
  rotr32 x 6 ^^^ rotr32 x 11 ^^^ rotr32 x 25

def shaRound (w : List Nat) (i : Nat) :
    Nat × Nat × Nat × Nat × Nat × Nat × Nat × Nat →
    Nat × Nat × Nat × Nat × Nat × Nat × Nat × Nat
  | (a, b, c, d, e, f, g, h) =>
    let ch := (e &&& f) ^^^ ((4294967295 - e) &&& g)
    let temp1 := w32 (h + shaBigSigma1 e + ch + shaK.getD i 0 + w.getD i 0)
    let maj := (a &&& b) ^^^ (a &&& c) ^^^ (b &&& c)
    let temp2 := w32 (shaBigSigma0 a + maj)
    (w32 (temp1 + temp2), a, b, c, w32 (d + temp1), e, f, g)

def shaRounds (w : List Nat)
    (st : Nat × Nat × Nat × Nat × Nat × Nat × Nat × Nat) : Nat →
    Nat × Nat × Nat × Nat × Nat × Nat × Nat × Nat
  | 0 => st
  | n + 1 => shaRound w n (shaRounds w st n)

def shaChunk (h : List Nat) (chunk : List Nat) : List Nat :=
  let w := shaExtend (shaWords chunk) 48
  match h with
  | [h0, h1, h2, h3, h4, h5, h6, h7] =>
    let (a, b, c, d, e, f, g, h') :=
      shaRounds w (h0, h1, h2, h3, h4, h5, h6, h7) 64
    [w32 (h0 + a), w32 (h1 + b), w32 (h2 + c), w32 (h3 + d),
     w32 (h4 + e), w32 (h5 + f), w32 (h6 + g), w32 (h7 + h')]
  | _ => h

def shaChunksGo : Nat → List Nat → List Nat → List Nat
  | 0, h, _ => h
  | n + 1, h, bytes =>
    if bytes.length < 64 then h
    else shaChunksGo n (shaChunk h (bytes.take 64)) (bytes.drop 64)

def shaChunks (h bytes : List Nat) : List Nat :=
  shaChunksGo (bytes.length / 64 + 1) h bytes

def hexDigit (n : Nat) : Char :=
  if n < 10 then Char.ofNat ('0'.toNat + n)
  else Char.ofNat ('a'.toNat + (n - 10))

def toHex8 (x : Nat) : List Char :=
  [hexDigit ((x >>> 28) % 16), hexDigit ((x >>> 24) % 16),
   hexDigit ((x >>> 20) % 16), hexDigit ((x >>> 16) % 16),
   hexDigit ((x >>> 12) % 16), hexDigit ((x >>> 8) % 16),
   hexDigit ((x >>> 4) % 16), hexDigit (x % 16)]

/-- SHA-256 hex digest of a byte list. -/
def sha256Hex (msg : List Nat) : String :=
  let h0 := [1779033703, 3144134277, 1013904242, 2773480762,
             1359893119, 2600822924, 528734635, 1541459225]
  let h := shaChunks h0 (shaPad msg)
  String.mk (h.map toHex8).flatten

/-- Bytes of an ASCII string (UTF-8 agrees on the catalog's seeds). -/
def stringBytes (s : String) : List Nat :=
  s.data.map Char.toNat

/-- `Parser.createDirectiveId`. -/
def createDirectiveId (keyword : String) (position : SourcePosition) :
    String :=
  let seed := keyword ++ ":" ++ toString position.line ++ ":" ++
    toString position.column
  (sha256Hex (stringBytes seed)).take 16

/-! ### `compiler/parser.ts` — attribute validators -/

structure AttributeValidationContext where
  keyword : Keyword
  attributeName : String

/-- `failValidation` (always throws). -/
def failValidation (context : AttributeValidationContext) (message : String)
    (position : SourcePosition) : Except CompileError α :=
  .error (.parseError
    ("Attribute '" ++ context.attributeName ++ "' on <" ++
      context.keyword.name ++ "> " ++ message)
    position)

/-- `ATTRIBUTE_VALIDATORS.number`. -/
def validateNumber (context : AttributeValidationContext)
    (spec : AttributeSpec) (value : LiteralValue) :
    Except CompileError Unit :=
  match value with
  | .numberLit n _ p =>
    match spec.validator with
    | some f =>
      if ¬ f (.num n) then failValidation context "failed validation" p
      else pure ()
    | none => pure ()
  | .stringLit _ _ => pure ()
  | _ =>
    failValidation context "expects a numeric value" value.position

/-- `ATTRIBUTE_VALIDATORS.string`. -/
def validateString (context : AttributeValidationContext)
    (spec : AttributeSpec) (value : LiteralValue) :
    Except CompileError Unit :=
  match value with
  | .stringLit s p =>
    match spec.validator with
    | some f =>
      if ¬ f (.str s) then failValidation context "failed validation" p
      else pure ()
    | none => pure ()
  | _ =>
    failValidation context
      ("expects a string value got '" ++ value.typeName ++ "'")
      value.position

/-- `ATTRIBUTE_VALIDATORS.boolean`. -/
def validateBoolean (context : AttributeValidationContext)
    (spec : AttributeSpec) (value : LiteralValue) :
    Except CompileError Unit :=
  match value with
  | .identifierLit name p =>
    let normalized := toLowerStr name
    if normalized ≠ "true" ∧ normalized ≠ "false" then
      failValidation context "expects 'true' or 'false'" p
    else
      match spec.validator with
      | some f =>
        if ¬ f (.bool (normalized = "true")) then
          failValidation context "failed validation" p
        else pure ()
      | none => pure ()
  | _ =>
    failValidation context "expects 'true' or 'false'" value.position

/-- `itemTypes?.[index] ?? itemTypes?.[0] ?? "number"`. -/
def expectedTypeAt (itemTypes : Option (List TupleItemType)) (index : Nat) :
    TupleItemType :=
  match itemTypes with
  | none => .number
  | some ts =>
    match ts.get? index with
    | some t => t
    | none =>
      match ts.get? 0 with
      | some t => t
      | none => .number

/-- The per-slot loop of `ATTRIBUTE_VALIDATORS.tuple`, carrying the
`collected` array and the `shouldRunValidator` flag. -/
def tupleSlotsLoop (context : AttributeValidationContext)
    (itemTypes : Option (List TupleItemType)) :
    List LiteralValue → Nat → List NormVal → Bool →
    Except CompileError (List NormVal × Bool)
  | [], _, collected, shouldRunValidator =>
    pure (collected, shouldRunValidator)
  | entry :: rest, index, collected, shouldRunValidator =>
    match expectedTypeAt itemTypes index with
    | .number =>
      match entry with
      | .numberLit n _ _ =>
        tupleSlotsLoop context itemTypes rest (index + 1)
          (collected ++ [.num n]) shouldRunValidator
      | .stringLit s _ =>
        tupleSlotsLoop context itemTypes rest (index + 1)
          (collected ++ [.str s]) false
      | _ =>
        failValidation context "expects numeric or string tuple items"
          entry.position
    | .string =>
      match entry with
      | .stringLit s _ =>
        tupleSlotsLoop context itemTypes rest (index + 1)
          (collected ++ [.str s]) shouldRunValidator
      | _ =>
        failValidation context "expects string tuple items" entry.position
    | .identifier =>
      match entry with
      | .identifierLit n _ =>
        tupleSlotsLoop context itemTypes rest (index + 1)
          (collected ++ [.str n]) shouldRunValidator
      | _ =>
        failValidation context "expects identifier tuple items"
          entry.position

/-- `ATTRIBUTE_VALIDATORS.tuple`. -/
def validateTuple (context : AttributeValidationContext)
    (spec : AttributeSpec) (value : LiteralValue) :
    Except CompileError Unit :=
  match value with
  | .tupleLit values p => do
    if values.length ≠ spec.length then
      failValidation context
        ("expects a tuple of length " ++ toString spec.length) p
    else do
      let (collected, shouldRunValidator) ←
        tupleSlotsLoop context spec.itemTypes values 0 [] true
      match spec.validator with
      | some f =>
        if shouldRunValidator ∧ ¬ f (.arr collected) then
          failValidation context "failed validation" p
        else pure ()
      | none => pure ()
  | _ => failValidation context "expects a tuple" value.position

/-- `Parser.validateAttributeValue`: dispatch on the spec's type. -/
def validateAttributeValue (keyword : Keyword) (attributeName : String)
    (spec : AttributeSpec) (value : LiteralValue) :
    Except CompileError Unit :=
  let context : AttributeValidationContext := ⟨keyword, attributeName⟩
  match spec.type with
  | .number => validateNumber context spec value
  | .string => validateString context spec value
  | .boolean => validateBoolean context spec value
  | .tuple => validateTuple context spec value

/-! ### `compiler/parser.ts` — the `Parser` class

Parser state is the token list plus current index; methods are `StateT`
computations over it. A fresh nested `Parser` (the re-tokenized block
bodies) runs with its own state. -/

structure PSt where
  tokens : List Token
  index : Nat

abbrev PM := StateT PSt (Except CompileError)

/-- Fallback for `this.tokens[this.tokens.length - 1]!` on an empty token
array (unreachable: `tokenize` always produces an `EOF` token). -/
def eofFallback : Token := ⟨.EOF, "", ⟨0, 0⟩⟩

/-- `Parser.peek(distance)`. -/
def PSt.peekTok (s : PSt) (distance : Nat := 0) : Token :=
  match s.tokens.get? (s.index + distance) with
  | some t => t
  | none => (s.tokens.getLast?).getD eofFallback

def peekP (distance : Nat := 0) : PM Token := do
  pure ((← get).peekTok distance)

/-- The state change of `Parser.advance`. -/
def stAdvance (s : PSt) : PSt :=
  if s.index < s.tokens.length then { s with index := s.index + 1 }
  else s

/-- `Parser.advance`. -/
def advanceP : PM Unit :=
  modify stAdvance

/-- `Parser.check`. -/
def checkP (tt : TokenType) : PM Bool := do
  pure ((← peekP).type = tt)

/-- `Parser.match`. -/
def matchP (tt : TokenType) : PM Bool := do
  if ← checkP tt then
    advanceP
    pure true
  else pure false

/-- `Parser.consume`. -/
def consumeP (tt : TokenType) (message : String) : PM Token := do
  let token ← peekP
  if token.type = tt then
    advanceP
    pure token
  else
    throw (.parseError (message ++ " but got " ++ token.value)
      token.position)

/-- Lift a pure `Except` computation into the parser monad. -/
def liftE : Except CompileError α → PM α
  | .ok a => pure a
  | .error e => throw e

/-- `Parser.lookupKeyword`. -/
def lookupKeywordP (name : String) (position : SourcePosition) :
    PM Keyword :=
  match getSvgKeyword name with
  | some keyword => pure keyword
  | none =>
    throw (.parseError ("Unknown element <" ++ name ++ ">") position)

def parseStringLiteral : PM LiteralValue := do
  let token ← consumeP .STRING "Expected string literal"
  pure (.stringLit token.value token.position)

def parseNumberLiteral : PM LiteralValue := do
  let token ← consumeP .NUMBER "Expected numeric literal"
  pure (.numberLit (jsNumOfLexed token.value) token.value token.position)

def parseIdentifierLiteral : PM LiteralValue := do
  let token ← consumeP .IDENTIFIER "Expected identifier literal"
  pure (.identifierLit token.value token.position)

/-- The value of a `stringLit` (used where the source's static types
already guarantee a `StringLiteral`). -/
def LiteralValue.stringLitValue : LiteralValue → String
  | .stringLit v _ => v
  | _ => ""

/-- `Parser.fallThrough`: CSS-unit fusion of a `NUMBER` token with the
following token, and the bare CSS-exception keyword fold. -/
def fallThrough : PM (Option LiteralValue) := do
  let token ← peekP
  let nextToken ← peekP 1
  if token.type = .NUMBER ∧
      CSS_UNIT_SUFFIXES.contains (toLowerStr nextToken.value) then
    advanceP
    advanceP
    pure (some (.stringLit (token.value ++ nextToken.value)
      token.position))
  else if isCssException token.value then
    advanceP
    pure (some (.stringLit
      (replaceAllStr (token.value ++ nextToken.value) nextToken.value)
      token.position))
  else
    pure none

/-- `Parser.parseTupleItem`. -/
def parseTupleItem : PM LiteralValue := do
  match ← fallThrough with
  | some fall => pure fall
  | none =>
    let token ← peekP
    match token.type with
    | .STRING => parseStringLiteral
    | .NUMBER => parseNumberLiteral
    | .IDENTIFIER => parseIdentifierLiteral
    | _ =>
      throw (.parseError
        ("Invalid value inside tuple: " ++ token.type.name)
        token.position)

/-- The `do ... while (this.match(COMMA))` item loop of
`parseTupleLiteral`. -/
def tupleItemsLoop : Nat → List LiteralValue → PM (List LiteralValue)
  | 0, _ => throw .fuel
  | fuel + 1, acc => do
    let v ← parseTupleItem
    if ← matchP .COMMA then tupleItemsLoop fuel (acc ++ [v])
    else pure (acc ++ [v])

/-- `Parser.parseTupleLiteral`. -/
def parseTupleLiteral (fuel : Nat) : PM LiteralValue := do
  let start ← consumeP .LEFT_PAREN "Expected '(' to start tuple"
  let values ←
    if ← checkP .RIGHT_PAREN then pure []
    else tupleItemsLoop fuel []
  _ ← consumeP .RIGHT_PAREN "Expected ')' to close tuple"
  pure (.tupleLit values start.position)

/-- `Parser.parseAttributeValue`. -/
def parseAttributeValue (fuel : Nat) : PM LiteralValue := do
  match ← fallThrough with
  | some fall => pure fall
  | none =>
    let token ← peekP
    match token.type with
    | .STRING => parseStringLiteral
    | .NUMBER => parseNumberLiteral
    | .IDENTIFIER => parseIdentifierLiteral
    | .LEFT_PAREN => parseTupleLiteral fuel
    | _ =>
      throw (.parseError
        ("Unexpected token '" ++ token.value ++ "' in attribute value")
        token.position)

/-- `Parser.parseAttributeEntry`; the caller adds the name to `seen`. -/
def parseAttributeEntry (fuel : Nat) (parentKeyword : Keyword)
    (seen : List String) : PM AttributeNode := do
  let nameToken ← consumeP .IDENTIFIER "Expected attribute name"
  if seen.contains nameToken.value then
    throw (.parseError
      ("Attribute '" ++ nameToken.value ++ "' specified multiple times")
      nameToken.position)
  else do
    _ ← consumeP .COLON "Expected ':' between attribute name and value"
    let value ← parseAttributeValue fuel
    match parentKeyword.getAttributeSpec nameToken.value with
    | none =>
      throw (.parseError
        ("Attribute '" ++ nameToken.value ++ "' is not allowed on <" ++
          parentKeyword.name ++ ">")
        nameToken.position)
    | some spec => do
      liftE (validateAttributeValue parentKeyword nameToken.value spec
        value)
      pure ⟨nameToken.value, value, nameToken.position⟩

/-- The `do`/`while` of `Parser.parseDirectiveGroup`. -/
def directiveGroupLoop {T : Type} :
    Nat → PM T → PM Bool → String → List T → PM (List T)
  | 0, _, _, _, _ => throw .fuel
  | fuel + 1, parseDirective, hasNext, separatorMessage, acc => do
    let directive ← parseDirective
    let acc := acc ++ [directive]
    if ← hasNext then do
      _ ← consumeP .COMMA separatorMessage
      directiveGroupLoop fuel parseDirective hasNext separatorMessage acc
    else pure acc

/-- `Parser.parseDirectiveGroup`. -/
def parseDirectiveGroup {T : Type} (fuel : Nat) (parseDirective : PM T)
    (hasNext : PM Bool) (separatorMessage : String)
    (blockMessageFor : T → String) : PM (List T × Token) := do
  let directives ←
    directiveGroupLoop fuel parseDirective hasNext separatorMessage []
  match directives.getLast? with
  | some last => do
    let blockToken ← consumeP .BLOCK (blockMessageFor last)
    pure (directives, blockToken)
  | none => throw .fuel -- unreachable: the loop yields at least one entry

/-- `Parser.parseCssStateDirectives`. -/
def parseCssStateDirectives (fuel : Nat) (parentKeyword : Keyword)
    (directiveId : String) : PM (List CssStateDirective) := do
  let (directives, blockToken) ← parseDirectiveGroup fuel
    (do
      let atToken ← consumeP .AT
        ("Unexpected token inside <" ++ parentKeyword.name ++ ">")
      let stateToken ← consumeP .IDENTIFIER
        ("Expected CSS state name after '@' in <" ++ parentKeyword.name ++
          ">")
      if ¬ isCssState stateToken.value then
        throw (.parseError
          ("Unknown CSS state '" ++ stateToken.value ++ "'")
          stateToken.position)
      else
        pure (⟨stateToken.value, directiveId, "", atToken.position⟩ :
          CssStateDirective))
    (do pure ((← checkP .COMMA) && ((← peekP 1).type = .AT)))
    "Expected ',' between CSS states"
    (fun directive =>
      "Expected block for CSS state '" ++ directive.name ++ "' in <" ++
        parentKeyword.name ++ ">")
  pure (directives.map fun directive =>
    { directive with block := blockToken.value })

/-- `Parser.parseJsEventDirectives`. -/
def parseJsEventDirectives (fuel : Nat) (parentKeyword : Keyword)
    (directiveId : String) : PM (List JsEventDirective) := do
  let (directives, blockToken) ← parseDirectiveGroup fuel
    (do
      let onToken ← consumeP .IDENTIFIER
        ("Unexpected identifier in <" ++ parentKeyword.name ++ ">")
      if onToken.value ≠ "on" then
        throw (.parseError
          ("Unexpected identifier '" ++ onToken.value ++ "' inside <" ++
            parentKeyword.name ++ ">")
          onToken.position)
      else do
        _ ← consumeP .COLON
          ("Expected ':' after 'on' in <" ++ parentKeyword.name ++ ">")
        let eventToken ← consumeP .IDENTIFIER
          ("Expected event name after 'on:' in <" ++ parentKeyword.name ++
            ">")
        if ¬ isJsEvent eventToken.value then
          throw (.parseError
            ("Unknown JavaScript event '" ++ eventToken.value ++ "'")
            eventToken.position)
        else
          pure (⟨eventToken.value, directiveId, "", onToken.position⟩ :
            JsEventDirective))
    (do pure ((← checkP .COMMA) && ((← peekP 1).type = .IDENTIFIER) &&
      ((← peekP 1).value = "on") && ((← peekP 2).type = .COLON)))
    "Expected ',' between JavaScript events"
    (fun directive =>
      "Expected block for event '" ++ directive.name ++ "' in <" ++
        parentKeyword.name ++ ">")
  pure (directives.map fun directive =>
    { directive with block := blockToken.value })

/-- First required attribute not provided errors
(`Parser.verifyAttributes` inner loop). -/
def verifyAttributesGo (keywordName : String) (provided : List String)
    (position : SourcePosition) :
    List AttributeSpec → Except CompileError Unit
  | [] => pure ()
  | spec :: rest =>
    if spec.required ∧ ¬ provided.contains spec.name then
      .error (.parseError
        ("Attribute '" ++ spec.name ++ "' is required on <" ++
          keywordName ++ ">")
        position)
    else verifyAttributesGo keywordName provided position rest

/-- `Parser.verifyAttributes`. -/
def verifyAttributes (keyword : Keyword) (attributes : List AttributeNode)
    (position : SourcePosition) : Except CompileError Unit :=
  verifyAttributesGo keyword.name (attributes.map (·.name)) position
    keyword.getAttributeSpecs

structure ElementBlockEntries where
  attributes : List AttributeNode
  children : List ChildNode
  cssStates : List CssStateDirective
  jsEvents : List JsEventDirective
  dataId : Option String

mutual

/-- `Parser.parseElement`. -/
def parseElement : Nat → PM ElementNode
  | 0 => throw .fuel
  | fuel + 1 => do
    let nameToken ← consumeP .IDENTIFIER "Expected element name"
    let keyword ← lookupKeywordP nameToken.value nameToken.position
    let blockToken ← consumeP .BLOCK
      ("Expected block to describe <" ++ keyword.name ++ ">")
    let entries ← liftE (parseElementBlock fuel keyword blockToken)
    liftE (verifyAttributes keyword entries.attributes nameToken.position)
    pure (.mk keyword.name entries.attributes entries.children
      entries.cssStates entries.jsEvents entries.dataId
      nameToken.position)

/-- `Parser.parseElementBlock`: unwrap the block's braces and re-tokenize
the inner text for a fresh nested parser. -/
def parseElementBlock : Nat → Keyword → Token →
    Except CompileError ElementBlockEntries
  | 0, _, _ => .error .fuel
  | fuel + 1, keyword, blockToken =>
    let raw := blockToken.value
    if ¬ (raw.startsWith "\x7b" ∧ raw.endsWith "\x7d") then
      .error (.parseError ("Malformed block for <" ++ keyword.name ++ ">")
        blockToken.position)
    else
      let inner := sliceInner raw
      if (trimStr inner).length = 0 then
        pure ⟨[], [], [], [], none⟩
      else do
        let blockTokens ← tokenize inner
        (collectBlockEntries fuel keyword).run' ⟨blockTokens, 0⟩

/-- `Parser.collectBlockEntries` entry: generate the candidate directive
id from the first token of the re-tokenized block body. -/
def collectBlockEntries : Nat → Keyword → PM ElementBlockEntries
  | 0, _ => throw .fuel
  | fuel + 1, parentKeyword => do
    let s ← get
    let idGenerated :=
      createDirectiveId parentKeyword.name (s.peekTok 0).position
    collectLoop fuel parentKeyword idGenerated [] [] [] [] [] false

/-- The dispatch loop of `Parser.collectBlockEntries`. -/
def collectLoop : Nat → Keyword → String → List String →
    List AttributeNode → List ChildNode → List CssStateDirective →
    List JsEventDirective → Bool → PM ElementBlockEntries
  | 0, _, _, _, _, _, _, _, _ => throw .fuel
  | fuel + 1, parentKeyword, idGenerated, seen, attributes, children,
      cssStates, jsEvents, used => do
    if ← checkP .EOF then
      pure ⟨attributes, children, cssStates, jsEvents,
        if used then some idGenerated else none⟩
    else if ← checkP .AT then do
      let directives ←
        parseCssStateDirectives fuel parentKeyword idGenerated
      collectLoop fuel parentKeyword idGenerated seen attributes children
        (cssStates ++ directives) jsEvents true
    else if ← checkP .STRING then
      if ¬ parentKeyword.canContainText then do
        let literal ← parseStringLiteral
        throw (.parseError
          ("Text content is not allowed inside <" ++ parentKeyword.name ++
            ">")
          literal.position)
      else do
        let literal ← parseStringLiteral
        collectLoop fuel parentKeyword idGenerated seen attributes
          (children ++ [.text literal.stringLitValue literal.position])
          cssStates jsEvents used
    else if ¬ (← checkP .IDENTIFIER) then do
      let unexpected ← peekP
      throw (.parseError
        ("Unexpected token '" ++ unexpected.value ++ "' inside <" ++
          parentKeyword.name ++ ">")
        unexpected.position)
    else do
      let identifierToken ← peekP
      let lookahead ← peekP 1
      if identifierToken.value = "on" ∧ lookahead.type = .COLON then do
        let directives ←
          parseJsEventDirectives fuel parentKeyword idGenerated
        collectLoop fuel parentKeyword idGenerated seen attributes
          children cssStates (jsEvents ++ directives) true
      else if lookahead.type = .COLON then do
        let attributeNode ← parseAttributeEntry fuel parentKeyword seen
        collectLoop fuel parentKeyword idGenerated
          (seen ++ [attributeNode.name]) (attributes ++ [attributeNode])
          children cssStates jsEvents used
      else if lookahead.type = .BLOCK then do
        let child ← parseElement fuel
        if ¬ parentKeyword.hasAllowedChild child.name then
          throw (.parseError
            ("Element <" ++ child.name ++ "> is not allowed inside <" ++
              parentKeyword.name ++ ">")
            child.position)
        else
          collectLoop fuel parentKeyword idGenerated seen attributes
            (children ++ [.element child]) cssStates jsEvents used
      else
        throw (.parseError
          ("Expected ':' for attribute or block for child in <" ++
            parentKeyword.name ++ ">")
          lookahead.position)

end

/-- Phase 1 of `Parser.parse`: extract `style`/`script` special blocks,
carrying the remaining tokens forward in order. -/
def phase1Loop : Nat → List Token → List SpecialBlock →
    PM (List Token × List SpecialBlock)
  | 0, _, _ => throw .fuel
  | fuel + 1, newGenTokens, specialBlocks => do
    if ← checkP .EOF then
      pure (newGenTokens, specialBlocks)
    else do
      let peekValue := (← peekP).value
      let position := (← peekP).position
      let codeblock := isSpecialCodeblock peekValue
      if codeblock.isSome ∧ (← checkP .IDENTIFIER) ∧
          ((← peekP 1).type = .BLOCK) then
        match codeblock with
        | some kind => do
          _ ← consumeP .IDENTIFIER "Expected codeblock identifier"
          let blockToken ← consumeP .BLOCK
            (match kind with
             | .style => "Expected style block"
             | .script => "Expected script block")
          let content := trimStr (sliceInner blockToken.value)
          phase1Loop fuel newGenTokens
            (specialBlocks ++ [⟨kind, content, position⟩])
        | none => throw .fuel -- unreachable: guarded by `codeblock.isSome`
      else do
        let t ← peekP
        advanceP
        phase1Loop fuel (newGenTokens ++ [t]) specialBlocks

/-- Phase 2 of `Parser.parse`: top-level elements until `EOF`. -/
def phase2Loop : Nat → List ElementNode → PM (List ElementNode)
  | 0, _ => throw .fuel
  | fuel + 1, children => do
    if ← checkP .EOF then pure children
    else do
      let child ← parseElement fuel
      phase2Loop fuel (children ++ [child])

/-- `Parser.parse` / the exported `parse(tokens)`. -/
def parseTokens (fuel : Nat) (tokens : List Token) :
    Except CompileError (RootNode × List SpecialBlock) :=
  (show PM (RootNode × List SpecialBlock) from do
    let (newGenTokens, specialBlocks) ← phase1Loop fuel [] []
    let s ← get
    let eofTok : Token := ⟨.EOF, "", (s.peekTok 0).position⟩
    set (⟨newGenTokens ++ [eofTok], 0⟩ : PSt)
    let children ← phase2Loop fuel []
    pure (⟨children⟩, specialBlocks)).run' ⟨tokens, 0⟩

/-! ### `compiler/compiler.ts` -/

/-- General `s.replaceAll(pat, repl)` (patterns here contain no `$`
substitution sequences). -/
def replaceAllWithGo (pat repl : List Char) : Nat → List Char → List Char
  | _, [] => []
  | 0, l => l -- fuel guard; unreachable when the fuel covers the length
  | fuel + 1, c :: cs =>
    if pat ≠ [] ∧ listStartsWith (c :: cs) pat then
      repl ++ replaceAllWithGo pat repl fuel ((c :: cs).drop pat.length)
    else
      c :: replaceAllWithGo pat repl fuel cs

def replaceAllWithChars (pat repl l : List Char) : List Char :=
  replaceAllWithGo pat repl l.length l

def replaceAllWith (s pat repl : String) : String :=
  String.mk (replaceAllWithChars pat.data repl.data s.data)

/-- JavaScript-`Map` assignment on an insertion-ordered association list:
an existing key keeps its position, a new key is appended. -/
def mapSet (m : List (String × α)) (k : String) (v : α) :
    List (String × α) :=
  if m.any (fun p => p.1 = k) then
    m.map (fun p => if p.1 = k then (k, v) else p)
  else m ++ [(k, v)]

def mapGet (m : List (String × α)) (k : String) : Option α :=
  (m.find? (fun p => p.1 = k)).map Prod.snd

structure CssDirectiveEntry where
  state : String
  block : String

structure JsDirectiveEntry where
  event : String
  block : String

/-- `CompileContext` (the `keywords` map is the global catalog, modelled by
`getSvgKeyword`; `indent` is the constant `DEFAULT_INDENT`). -/
structure CompileContext where
  cssDirectives : List (String × List CssDirectiveEntry)
  jsDirectives : List (String × List JsDirectiveEntry)
  varCtx : List (String × LiteralValue)

def DEFAULT_INDENT : String := "  "

/-- `buildVariableContext`. -/
def buildVariableContext : Option VarsBlock →
    List (String × LiteralValue)
  | none => []
  | some varsBlock =>
    varsBlock.declarations.foldl
      (fun context d => mapSet context d.1 d.2) []

mutual

/-- `resolveValue`: eliminate `VariableReference`s, recursing into tuple
members. The fuel bounds the recursion; the source would overflow the
stack on a cyclic context, which cannot arise from `compile`. -/
def resolveValue : Nat → LiteralValue → List (String × LiteralValue) →
    Except CompileError LiteralValue
  | 0, _, _ => .error .fuel
  | fuel + 1, .variableReference name _, varCtx =>
    (match mapGet varCtx name with
     | none =>
       .error (.codegenError ("Variable '" ++ name ++ "' is not defined"))
     | some resolvedValue => resolveValue fuel resolvedValue varCtx)
  | fuel + 1, .tupleLit values p, varCtx => do
    let vs ← resolveValueList fuel values varCtx
    pure (.tupleLit vs p)
  | _ + 1, value, _ => pure value

def resolveValueList : Nat → List LiteralValue →
    List (String × LiteralValue) → Except CompileError (List LiteralValue)
  | 0, _, _ => .error .fuel
  | _ + 1, [], _ => pure []
  | fuel + 1, v :: rest, varCtx => do
    let r ← resolveValue fuel v varCtx
    let rs ← resolveValueList fuel rest varCtx
    pure (r :: rs)

end

mutual

/-- Structural size of a literal, used to bound `resolveValue`'s fuel. -/
def litValueSize : LiteralValue → Nat
  | .tupleLit values _ => 1 + litValueListSize values
  | _ => 1

def litValueListSize : List LiteralValue → Nat
  | [] => 1
  | v :: rest => 1 + litValueSize v + litValueListSize rest

end

/-- `normalizeNumberLike`. -/
def normalizeNumberLike : LiteralValue → Except CompileError NormVal
  | .numberLit n _ _ => pure (.num n)
  | .stringLit v _ => pure (.str v)
  | .identifierLit n _ => pure (.str n)
  | _ => .error (.codegenError "Expected numeric value")

/-- `normalizeStringLike` (note: numbers render their raw text here). -/
def normalizeStringLike : LiteralValue → Except CompileError NormVal
  | .stringLit v _ => pure (.str v)
  | .numberLit _ raw _ => pure (.str raw)
  | .identifierLit n _ => pure (.str n)
  | _ => .error (.codegenError "Expected string value")

/-- `normalizeBoolean`. -/
def normalizeBoolean : LiteralValue → Except CompileError NormVal
  | .identifierLit n _ => pure (.bool (toLowerStr n = "true"))
  | _ => .error (.codegenError "Expected boolean identifier")

def normalizeTupleEntries : List LiteralValue →
    Except CompileError (List NormVal)
  | [] => pure []
  | entry :: rest => do
    let v ←
      match entry with
      | .numberLit n _ _ => pure (NormVal.num n)
      | .stringLit s _ => pure (NormVal.str s)
      | .identifierLit n _ => pure (NormVal.str n)
      | _ =>
        (.error (.codegenError "Unsupported value inside tuple") :
          Except CompileError NormVal)
    let vs ← normalizeTupleEntries rest
    pure (v :: vs)

/-- `normalizeTuple`. -/
def normalizeTuple : LiteralValue → Except CompileError NormVal
  | .tupleLit values _ => do
    pure (.arr (← normalizeTupleEntries values))
  | _ => .error (.codegenError "Expected tuple value")

/-- `createAttributeValue`: resolve variable references, then normalize by the
spec's declared type. -/
def createAttributeValue (attributeNode : AttributeNode)
    (spec : AttributeSpec) (varCtx : List (String × LiteralValue)) :
    Except CompileError NormVal := do
  -- the fuel dominates every acyclic chain of variable references
  let fuel := (varCtx.length + 2) *
    (litValueSize attributeNode.value +
      (varCtx.map (fun p => litValueSize p.2)).sum + 2)
  let value ← resolveValue fuel attributeNode.value varCtx
  match spec.type with
  | .number => normalizeNumberLike value
  | .string => normalizeStringLike value
  | .boolean => normalizeBoolean value
  | .tuple => normalizeTuple value

/-- `escapeAttributeValue` applied after `String(value)` (which callers
provide via `jsToString`). -/
def escapeAttributeValue (value : NormVal) : String :=
  let stringValue := jsToString value
  replaceAllWith
    (replaceAllWith
      (replaceAllWith (replaceAllWith stringValue "&" "&amp;")
        "\"" "&quot;")
      "<" "&lt;")
    ">" "&gt;"

/-- `escapeTextContent`. -/
def escapeTextContent (value : String) : String :=
  replaceAllWith (replaceAllWith (replaceAllWith value "&" "&amp;")
    "<" "&lt;") ">" "&gt;"

/-- `extractBlockContent`. -/
def extractBlockContent (block : String) : String :=
  let trimmed := trimStr block
  if trimmed.startsWith "\x7b" ∧ trimmed.endsWith "\x7d" then
    trimStr (sliceInner trimmed)
  else trimmed

/-- `indentBlock`. -/
def indentBlock (content : String) (indent : String) : String :=
  let normalized := trimStr content
  if normalized.length = 0 then ""
  else
    joinSep "\n" ((splitLines normalized).map (fun line => indent ++ line))

mutual

/-- `literalValueToString`. The `IdentifierLiteral` case reads the
non-existent `value` field, so JavaScript substitutes
`String(undefined) = "undefined"`. -/
def literalValueToString : LiteralValue → Except CompileError String
  | .numberLit n _ _ => pure (jsNumToString n)
  | .stringLit v _ => pure v
  | .identifierLit _ _ => pure "undefined"
  | .tupleLit values _ => do
    pure (joinSep ", " (← literalValueToStringList values))
  | .variableReference name _ =>
    .error (.codegenError ("Unresolved variable reference: $" ++ name))

def literalValueToStringList : List LiteralValue →
    Except CompileError (List String)
  | [] => pure []
  | v :: rest => do
    pure ((← literalValueToString v) :: (← literalValueToStringList rest))

end

def isVarStartChar (c : Char) : Bool :=
  isAlphaJs c || c = '_' || c = '-'

def isVarContChar (c : Char) : Bool :=
  isAlphaJs c || isDigitJs c || c = '_' || c = '-'

/-- Leftmost match of `/\$([a-zA-Z_-][a-zA-Z0-9_-]*)/` in a character
list: `(text before, captured name, text after)`. -/
def findVarMatch : List Char → Option (List Char × List Char × List Char)
  | '$' :: c :: rest =>
    if isVarStartChar c then
      some ([], c :: rest.takeWhile isVarContChar,
        rest.dropWhile isVarContChar)
    else
      match findVarMatch (c :: rest) with
      | some (pre, name, post) => some ('$' :: pre, name, post)
      | none => none
  | c :: rest =>
    match findVarMatch rest with
    | some (pre, name, post) => some (c :: pre, name, post)
    | none => none
  | [] => none

def resolveVariablesInTextLoop (varCtx : List (String × LiteralValue)) :
    Nat → List Char → List Char → Except CompileError (List Char)
  | 0, _, _ => .error .fuel
  | fuel + 1, acc, text =>
    match findVarMatch text with
    | none => pure (acc ++ text)
    | some (pre, name, post) =>
      match mapGet varCtx (String.mk name) with
      | none =>
        .error (.codegenError
          ("Variable '$" ++ String.mk name ++ "' is not defined"))
      | some value => do
        let s ← literalValueToString value
        resolveVariablesInTextLoop varCtx fuel (acc ++ pre ++ s.data)
          post

/-- `resolveVariablesInText`: replace each `$name` occurrence through the
variable context, throwing on an undefined name. -/
def resolveVariablesInText (text : String)
    (varCtx : List (String × LiteralValue)) :
    Except CompileError String := do
  pure (String.mk
    (← resolveVariablesInTextLoop varCtx (text.length + 1) []
      text.data))

/-- The attribute-rendering loop of `renderAttributes`: missing specs are
skipped, produced entries with `undefined`/`null` values are dropped. -/
def renderAttributesGo (varCtx : List (String × LiteralValue))
    (keyword : Keyword) : List AttributeNode →
    Except CompileError (List String)
  | [] => pure []
  | attributeNode :: rest =>
    match keyword.getAttributeSpec attributeNode.name with
    | none => renderAttributesGo varCtx keyword rest
    | some spec => do
      let value ← createAttributeValue attributeNode spec varCtx
      let produced :=
        match spec.produce with
        | some p => p value
        | none => [(spec.name, some value)]
      let rendered := produced.filterMap fun entry =>
        match entry.2 with
        | none => none
        | some producedValue =>
          some (entry.1 ++ "=\"" ++ escapeAttributeValue producedValue ++
            "\"")
      let restRendered ← renderAttributesGo varCtx keyword rest
      pure (rendered ++ restRendered)

def cssEntriesLoop (varCtx : List (String × LiteralValue)) :
    List CssStateDirective → Except CompileError (List CssDirectiveEntry)
  | [] => pure []
  | directive :: rest => do
    let blockContent := extractBlockContent directive.block
    let resolvedContent ← resolveVariablesInText blockContent varCtx
    let restEntries ← cssEntriesLoop varCtx rest
    pure (⟨directive.name, resolvedContent⟩ :: restEntries)

def jsEntriesLoop (varCtx : List (String × LiteralValue)) :
    List JsEventDirective → Except CompileError (List JsDirectiveEntry)
  | [] => pure []
  | directive :: rest => do
    let blockContent := extractBlockContent directive.block
    let resolvedContent ← resolveVariablesInText blockContent varCtx
    let restEntries ← jsEntriesLoop varCtx rest
    pure (⟨directive.name, resolvedContent⟩ :: restEntries)

/-- `collectDirectives`. -/
def collectDirectives (node : ElementNode) (context : CompileContext) :
    Except CompileError CompileContext := do
  match node.dataId with
  | none => pure context
  | some dataId => do
    let context ←
      if node.cssStates.length > 0 then do
        let newEntries ← cssEntriesLoop context.varCtx node.cssStates
        let cssEntries := (mapGet context.cssDirectives dataId).getD []
        pure { context with
          cssDirectives :=
            mapSet context.cssDirectives dataId (cssEntries ++ newEntries) }
      else pure context
    if node.jsEvents.length > 0 then do
      let newEntries ← jsEntriesLoop context.varCtx node.jsEvents
      let jsEntries := (mapGet context.jsDirectives dataId).getD []
      pure { context with
        jsDirectives :=
          mapSet context.jsDirectives dataId (jsEntries ++ newEntries) }
    else pure context

mutual

/-- `compileElement`: attributes (with a leading `data-identifier` when
present), directive collection, then children. -/
def compileElement : ElementNode → CompileContext → Nat →
    Except CompileError (String × CompileContext)
  | .mk name attrs children cssStates jsEvents dataId position, context,
      depth =>
    match getSvgKeyword name with
    | none => .error (.codegenError ("Unknown SVG element: " ++ name))
    | some keyword => do
      let indent := repeatStr DEFAULT_INDENT depth
      let attributes ← renderAttributesGo context.varCtx keyword attrs
      let attributes :=
        match dataId with
        | some id =>
          ("data-identifier=\"" ++ escapeAttributeValue (.str id) ++ "\"")
            :: attributes
        | none => attributes
      let attributesSegment :=
        if attributes.length > 0 then " " ++ joinSep " " attributes else ""
      let context ← collectDirectives
        (.mk name attrs children cssStates jsEvents dataId position)
        context
      if children.length = 0 then
        pure (indent ++ "<" ++ name ++ attributesSegment ++ " />",
          context)
      else do
        let (childStrs, context) ←
          compileChildList children context (depth + 1)
        pure (indent ++ "<" ++ name ++ attributesSegment ++ ">\n" ++
          joinSep "\n" childStrs ++ "\n" ++ indent ++ "</" ++ name ++
          ">", context)

def compileChildList : List ChildNode → CompileContext → Nat →
    Except CompileError (List String × CompileContext)
  | [], context, _ => pure ([], context)
  | child :: rest, context, depth => do
    let (s, context) ← compileChild child context depth
    let (ss, context) ← compileChildList rest context depth
    pure (s :: ss, context)

/-- `compileChild`. -/
def compileChild : ChildNode → CompileContext → Nat →
    Except CompileError (String × CompileContext)
  | .text value _, context, depth =>
    pure (repeatStr DEFAULT_INDENT depth ++ escapeTextContent value,
      context)
  | .element e, context, depth => compileElement e context depth

end

def compileRootList : List ElementNode → CompileContext →
    Except CompileError (List String × CompileContext)
  | [], context => pure ([], context)
  | node :: rest, context => do
    let (s, context) ← compileElement node context 0
    let (ss, context) ← compileRootList rest context
    pure (s :: ss, context)


def renderCssEntriesFor (dataId : String) :
    List CssDirectiveEntry → List String
  | [] => []
  | entry :: rest =>
    let body := indentBlock entry.block DEFAULT_INDENT
    (if body.length = 0 then
      ["[data-identifier=\"" ++ dataId ++ "\"]:" ++ entry.state ++ " {}"]
    else
      ["[data-identifier=\"" ++ dataId ++ "\"]:" ++ entry.state ++ " \x7b",
       body, "\x7d"]) ++ renderCssEntriesFor dataId rest

def renderCssRules : List (String × List CssDirectiveEntry) → List String
  | [] => []
  | (dataId, entries) :: rest =>
    renderCssEntriesFor dataId entries ++ renderCssRules rest

/-- `renderCssDirectives` (`null` for an empty map becomes `none`). -/
def renderCssDirectives
    (cssDirectives : List (String × List CssDirectiveEntry)) :
    Option String :=
  if cssDirectives.length = 0 then none
  else some (joinSep "\n" (renderCssRules cssDirectives))

/-- `escapeForJsString`. -/
def escapeForJsString (value : String) : String :=
  replaceAllWith (replaceAllWith value "\\" "\\\\") "\"" "\\\""

def renderJsListeners : List JsDirectiveEntry → List String
  | [] => []
  | entry :: rest =>
    let body := indentBlock entry.block (DEFAULT_INDENT ++ DEFAULT_INDENT)
    ([DEFAULT_INDENT ++ "element.addEventListener(\"" ++ entry.event ++
        "\", (event) => \x7b"] ++
      (if body.length > 0 then [body] else []) ++
      [DEFAULT_INDENT ++ "\x7d);"]) ++ renderJsListeners rest

def renderJsGroups : List (String × List JsDirectiveEntry) → List String
  | [] => []
  | (dataId, entries) :: rest =>
    let lines :=
      ["(() => \x7b",
       DEFAULT_INDENT ++
         "const element = document.querySelector('[data-identifier=\"" ++
         escapeForJsString dataId ++ "\"]');",
       DEFAULT_INDENT ++ "if (!element) return;",
       DEFAULT_INDENT ++
         "const identifier = element.getAttribute(\"data-identifier\");"]
        ++ renderJsListeners entries ++ ["\x7d)();"]
    joinSep "\n" lines :: renderJsGroups rest

/-- `renderJsDirectives`. -/
def renderJsDirectives
    (jsDirectives : List (String × List JsDirectiveEntry)) :
    Option String :=
  if jsDirectives.length = 0 then none
  else some (joinSep "\n" (renderJsGroups jsDirectives))

/-- JavaScript truthiness of `string | null` (`if (cssContent)`). -/
def truthySection : Option String → List String
  | none => []
  | some c => if c.length > 0 then [c] else []

/-- `compileAst`. `RootNode` carries no `varsBlock` field, so the
`ast.varsBlock` access yields `undefined` and the variable context is
built from nothing. -/
def compileAst (ast : RootNode) (blocks : List SpecialBlock) :
    Except CompileError String := do
  let context : CompileContext := ⟨[], [], buildVariableContext none⟩
  let (markups, context) ← compileRootList ast.children context
  let markup := joinSep "\n" markups
  let cssContent := renderCssDirectives context.cssDirectives
  let jsContent := renderJsDirectives context.jsDirectives
  let sections := [markup]
  let sections := sections ++
    (truthySection cssContent).map
      (fun c => "<style>\n" ++ c ++ "\n</style>")
  let sections := sections ++
    (truthySection jsContent).map
      (fun c => "<scr" ++ "ipt>\n" ++ c ++ "\n</scr" ++ "ipt>")
  let sections := sections ++ blocks.map (fun block =>
    "<" ++ block.style.name ++ ">\n" ++ block.content ++ "\n</" ++
      block.style.name ++ ">")
  pure (joinSep "\n"
    (sections.filter (fun sect => sect.length > 0)))

/-! ### `index.ts` -/

/-- `compile(code)` with the default `svg` output format (`index.ts`
rejects every other format before reaching the pipeline). The parser fuel
quadratically dominates the token count of the source and of every
re-tokenized nested block. -/
def parseSource (code : String) :
    Except CompileError (RootNode × List SpecialBlock) := do
  let tokens ← tokenize code
  parseTokens ((code.length + 2) * (code.length + 2)) tokens

def compile (code : String) : Except CompileError String := do
  let (root, specialBlocks) ← parseSource code
  compileAst root specialBlocks

/-! ## Support definitions for the claim theorems -/

/-- Top-level elements of a parse result (empty on failure). -/
def rootChildren
    (r : Except CompileError (RootNode × List SpecialBlock)) :
    List ElementNode :=
  match r with
  | .ok (root, _) => root.children
  | .error _ => []

/-- The catalog entry for a name, defaulting to an inert keyword (used
only at names known to be in the catalog). -/
def keywordOf (name : String) : Keyword :=
  (getSvgKeyword name).getD ⟨name, [], [], false, false⟩

/-- Reformulation of tuple validation following the specification's
wording (claim C7): each slot is judged against its expected kind,
returning the collected value together with a flag that is `false` exactly
when a number-kind slot fell back to a string literal (the condition under
which the spec says the numeric validator is disabled). -/
def specSlotOutcome (context : AttributeValidationContext)
    (expected : TupleItemType) (entry : LiteralValue) :
    Except CompileError (NormVal × Bool) :=
  match expected, entry with
  | .number, .numberLit n _ _ => .ok (.num n, true)
  | .number, .stringLit s _ => .ok (.str s, false)
  | .number, _ =>
    failValidation context "expects numeric or string tuple items"
      entry.position
  | .string, .stringLit s _ => .ok (.str s, true)
  | .string, _ =>
    failValidation context "expects string tuple items" entry.position
  | .identifier, .identifierLit n _ => .ok (.str n, true)
  | .identifier, _ =>
    failValidation context "expects identifier tuple items" entry.position

/-- All slot outcomes, left to right. -/
def specSlotOutcomes (context : AttributeValidationContext)
    (itemTypes : Option (List TupleItemType)) :
    List LiteralValue → Nat → Except CompileError (List (NormVal × Bool))
  | [], _ => pure []
  | entry :: rest, index => do
    let o ← specSlotOutcome context (expectedTypeAt itemTypes index) entry
    let os ← specSlotOutcomes context itemTypes rest (index + 1)
    pure (o :: os)

/-- Tuple validation as the specification words it: exact arity match;
per-slot kind check; the custom validator runs over the fully collected
tuple only when no number-kind slot fell back to a string literal. -/
def tupleValidatorSpec (context : AttributeValidationContext)
    (spec : AttributeSpec) (value : LiteralValue) :
    Except CompileError Unit :=
  match value with
  | .tupleLit values p =>
    if values.length ≠ spec.length then
      failValidation context
        ("expects a tuple of length " ++ toString spec.length) p
    else do
      let outcomes ← specSlotOutcomes context spec.itemTypes values 0
      let collected := outcomes.map Prod.fst
      let noStringFallback := outcomes.all Prod.snd
      match spec.validator with
      | some f =>
        if noStringFallback ∧ ¬ f (.arr collected) then
          failValidation context "failed validation" p
        else pure ()
      | none => pure ()
  | _ => failValidation context "expects a tuple" value.position

/-! ## Claim theorems -/

/-- The slot loop of the source validator computes exactly the per-slot
outcomes of the specification's formulation, threading the collected
array and the validator flag. -/
theorem tupleSlotsLoop_eq_spec (context : AttributeValidationContext)
    (itemTypes : Option (List TupleItemType)) (values : List LiteralValue)
    (index : Nat) (collected : List NormVal) (flag : Bool) :
    tupleSlotsLoop context itemTypes values index collected flag =
      (specSlotOutcomes context itemTypes values index).map
        (fun outcomes =>
          (collected ++ outcomes.map Prod.fst,
           flag && outcomes.all Prod.snd)) := by
  induction values generalizing index collected flag with
  | nil => simp [tupleSlotsLoop, specSlotOutcomes, Except.map, pure,
      Except.pure]
  | cons entry rest ih =>
    cases hE : expectedTypeAt itemTypes index <;> cases entry <;>
      simp only [tupleSlotsLoop, specSlotOutcomes, specSlotOutcome, hE,
        ih, Except.map, pure, Except.pure, bind, Except.bind,
        failValidation] <;>
      cases hRest : specSlotOutcomes context itemTypes rest (index + 1) <;>
      simp [Except.map, pure, Except.pure, bind, Except.bind,
        List.append_assoc, Bool.and_assoc]

/-- C1: the spec (and the package's own `compiler.test.js`) require
`vars { width: 150 } svg { size: ($width, 100) }` to compile with
`width="150" height="100"`. The parser has no `vars` handling at all:
phase 1 only extracts `style`/`script` blocks, and phase 2 feeds `vars`
to `lookupKeyword`, which rejects it as an unknown element, so the
document fails to compile. -/
theorem c1_vars_block_rejected_as_unknown_element :
    compile "vars { width: 150 } svg { size: ($width, 100) }" =
      .error (.parseError "Unknown element <vars>" ⟨1, 1⟩) := by
  rfl

/-- C5: the claimed error is "Invalid variable value ... literal values"
raised while parsing the `VarsBlock`; no code path produces that message.
The document does fail, but already at the top level, because `vars` is
not a known element. -/
theorem c5_vars_alias_error_never_produced :
    compile "vars { a: 10 b: $a } svg { size: (100,100) }" =
      .error (.parseError "Unknown element <vars>" ⟨1, 1⟩) := by
  rfl

/-- C4: `compile` is a pure function of the source text (the embedding is
deterministic by construction: the memoized keyword catalog is built from
constants only, and no other global state exists), so two successful
compilations of the same text agree byte for byte. -/
theorem c4_compile_deterministic (code : String) (out₁ out₂ : String)
    (h₁ : compile code = .ok out₁) (h₂ : compile code = .ok out₂) :
    out₁ = out₂ := by
  rw [h₁] at h₂
  exact (Except.ok.injEq _ _).mp h₂

set_option maxRecDepth 1000000 in
theorem c4_compile_deterministic_witness :
    compile "svg { size: (100, 100) }" =
      .ok "<svg width=\"100\" height=\"100\" />" ∧
    "<svg width=\"100\" height=\"100\" />" =
      "<svg width=\"100\" height=\"100\" />" :=
  ⟨by with_unfolding_all rfl,
   c4_compile_deterministic "svg { size: (100, 100) }" _ _
     (by with_unfolding_all rfl) (by with_unfolding_all rfl)⟩

set_option maxRecDepth 1000000 in
/-- C2 (counterexample): the claim's exact document does not compile.
`#333` lexes as an `IDENTIFIER` token (`#` is a legal identifier
character), and the string-typed `stroke` attribute rejects every
non-string literal, so validation fails (position is block-local, from the
re-tokenized body). -/
theorem c2_bare_hash_stroke_rejected :
    compile "rect \x7b at: (20,20) size: (100px,100px) radius: (8,8) stroke: #333 strokeWidth: 2 id:\"box\" \x7d" =
      .error (.parseError
        "Attribute 'stroke' on <rect> expects a string value got 'IdentifierLiteral'"
        ⟨1, 56⟩) := by
  with_unfolding_all rfl

set_option maxRecDepth 1000000 in
/-- C2 (amended): with the stroke colour quoted (`stroke: "#333"`), the
document compiles and the generated markup carries exactly the claimed
attributes. -/
theorem c2_quoted_stroke_compiles :
    compile "rect \x7b at: (20,20) size: (100px,100px) radius: (8,8) stroke: \"#333\" strokeWidth: 2 id:\"box\" \x7d" =
      .ok "<rect x=\"20\" y=\"20\" width=\"100px\" height=\"100px\" rx=\"8\" ry=\"8\" stroke=\"#333\" stroke-width=\"2\" id=\"box\" />" ∧
    (["x=\"20\"", "y=\"20\"", "width=\"100px\"", "height=\"100px\"",
      "rx=\"8\"", "ry=\"8\"", "stroke=\"#333\"", "stroke-width=\"2\"",
      "id=\"box\""].all
      (strContains
        "<rect x=\"20\" y=\"20\" width=\"100px\" height=\"100px\" rx=\"8\" ry=\"8\" stroke=\"#333\" stroke-width=\"2\" id=\"box\" />")) =
      true :=
  ⟨by with_unfolding_all rfl, by with_unfolding_all rfl⟩

/-- Two structurally identical `circle` elements on different lines. -/
def c3Doc : String :=
  "circle { r: 1 @hover {} }\ncircle { r: 1 @hover {} }"

set_option maxRecDepth 1000000 in
/-- C3 (counterexample): both circles own a directive and sit at distinct
source positions (lines 1 and 2), yet they receive the *same* dataId: the
hash seed uses the position of the first token of the re-tokenized block
body (line 1, column 2 in block-local coordinates for both), not the
element's declaration position. -/
theorem c3_distinct_positions_same_dataId :
    (rootChildren (parseSource c3Doc)).map ElementNode.dataId =
      [some (createDirectiveId "circle" ⟨1, 2⟩),
       some (createDirectiveId "circle" ⟨1, 2⟩)] ∧
    (rootChildren (parseSource c3Doc)).map ElementNode.position =
      [⟨1, 1⟩, ⟨2, 1⟩] ∧
    (⟨1, 1⟩ : SourcePosition) ≠ ⟨2, 1⟩ :=
  ⟨by with_unfolding_all rfl, by with_unfolding_all rfl, by decide⟩

/-- A directive-owning circle declared on line 3. -/
def c3DocB : String := "g {}\n\ncircle { r: 2 on: click {} }"

set_option maxRecDepth 1000000 in
/-- C3 (amended): the dataId is a stable SHA-256-prefix hash over
`name:line:column`, where the position is that of the first token of the
element's re-tokenized block body (block-local coordinates), not the
declaration position; repeated parses of identical source yield identical
results, and only elements differing in name or block-local first-token
position get distinct ids. Here the circle is declared at line 3 but its
id hashes `circle:1:2`. -/
theorem c3_dataId_block_local_hash :
    (∀ code : String, parseSource code = parseSource code ∧
      compile code = compile code) ∧
    (rootChildren (parseSource c3DocB)).map ElementNode.dataId =
      [none, some (createDirectiveId "circle" ⟨1, 2⟩)] ∧
    (rootChildren (parseSource c3DocB)).map ElementNode.position =
      [⟨1, 1⟩, ⟨3, 1⟩] ∧
    createDirectiveId "circle" ⟨1, 2⟩ =
      (sha256Hex (stringBytes "circle:1:2")).take 16 :=
  ⟨fun _ => ⟨rfl, rfl⟩, by with_unfolding_all rfl,
   by with_unfolding_all rfl, by rfl⟩

/-- C7: the source's tuple validator agrees, on every context, spec and
value, with the specification's formulation: exact arity is enforced; a
number slot accepts a number literal or falls back to a string literal, a
string slot requires a string literal, an identifier slot requires an
identifier literal; and the custom validator runs over the collected tuple
exactly when no number slot took the string fallback. -/
theorem c7_tuple_validator_matches_spec
    (context : AttributeValidationContext) (spec : AttributeSpec)
    (value : LiteralValue) :
    validateTuple context spec value = tupleValidatorSpec context spec value := by
  cases value with
  | tupleLit values p =>
    simp only [validateTuple, tupleValidatorSpec]
    by_cases hLen : values.length ≠ spec.length
    · simp [hLen]
    · simp only [hLen, if_false, bind, Except.bind,
        tupleSlotsLoop_eq_spec]
      cases hOut : specSlotOutcomes context spec.itemTypes values 0 <;>
        simp [Except.map, bind, Except.bind]
  | numberLit n raw p => rfl
  | stringLit s p => rfl
  | identifierLit n p => rfl
  | variableReference n p => rfl

/-- When no required attribute is missing, the required-attribute scan
passes. -/
theorem verifyAttributesGo_ok (kwName : String) (provided : List String)
    (pos : SourcePosition) (specs : List AttributeSpec)
    (h : specs.find?
      (fun spec => spec.required && !(provided.contains spec.name)) =
        none) :
    verifyAttributesGo kwName provided pos specs = .ok () := by
  induction specs with
  | nil => rfl
  | cons spec rest ih =>
    simp only [List.find?] at h
    cases hp : (spec.required && !(provided.contains spec.name)) with
    | true =>
      rw [hp] at h
      exact Option.noConfusion h
    | false =>
      rw [hp] at h
      simp only [verifyAttributesGo]
      rw [if_neg]
      · exact ih h
      · intro hc
        rcases Bool.and_eq_false_iff.mp hp with hp' | hp'
        · rw [hp'] at hc
          exact Bool.false_ne_true hc.1
        · exact hc.2 (by simpa using hp')

/-- The first missing required attribute (in catalog order) is the one the
scan reports. -/
theorem verifyAttributesGo_missing (kwName : String)
    (provided : List String) (pos : SourcePosition)
    (specs : List AttributeSpec) (spec : AttributeSpec)
    (h : specs.find?
      (fun s => s.required && !(provided.contains s.name)) = some spec) :
    verifyAttributesGo kwName provided pos specs =
      .error (.parseError
        ("Attribute '" ++ spec.name ++ "' is required on <" ++ kwName ++
          ">") pos) := by
  induction specs with
  | nil => simp [List.find?] at h
  | cons s rest ih =>
    simp only [List.find?] at h
    cases hp : (s.required && !(provided.contains s.name)) with
    | true =>
      rw [hp] at h
      cases h
      simp only [verifyAttributesGo]
      rw [if_pos]
      simp only [Bool.and_eq_true, Bool.not_eq_true'] at hp
      refine ⟨hp.1, fun hc => ?_⟩
      rw [hp.2] at hc
      exact Bool.false_ne_true hc
    | false =>
      rw [hp] at h
      simp only [verifyAttributesGo]
      rw [if_neg]
      · exact ih h
      · intro hc
        rcases Bool.and_eq_false_iff.mp hp with hp' | hp'
        · rw [hp'] at hc
          exact Bool.false_ne_true hc.1
        · exact hc.2 (by simpa using hp')

set_option maxRecDepth 1000000 in
/-- C6 (amended): after a block is parsed, `verifyAttributes` fails with
an error naming the first required attribute that is absent, and passes
when every required attribute is present; `rect { at: (0,0) }` shows the
end-to-end failure naming `size`. Presence of all required attributes
makes this *check* pass but does not by itself make compilation succeed
(see the counterexample). -/
theorem c6_required_attribute_check (keyword : Keyword)
    (attrs : List AttributeNode) (pos : SourcePosition) :
    (keyword.getAttributeSpecs.find?
        (fun spec => spec.required &&
          !((attrs.map AttributeNode.name).contains spec.name)) = none →
      verifyAttributes keyword attrs pos = .ok ()) ∧
    (∀ name : String,
      (keyword.getAttributeSpecs.find?
        (fun spec => spec.required &&
          !((attrs.map AttributeNode.name).contains spec.name))).map
            AttributeSpec.name = some name →
      verifyAttributes keyword attrs pos =
        .error (.parseError
          ("Attribute '" ++ name ++ "' is required on <" ++
            keyword.name ++ ">") pos)) ∧
    compile "rect { at: (0,0) }" =
      .error (.parseError "Attribute 'size' is required on <rect>"
        ⟨1, 1⟩) := by
  refine ⟨fun h => verifyAttributesGo_ok _ _ _ _ h, fun name h => ?_,
    by with_unfolding_all rfl⟩
  cases hf : (keyword.getAttributeSpecs.find?
      (fun spec => spec.required &&
        !((attrs.map AttributeNode.name).contains spec.name))) with
  | none => rw [hf] at h; cases h
  | some spec =>
    rw [hf] at h
    simp only [Option.map_some'] at h
    cases h
    exact verifyAttributesGo_missing _ _ _ _ _ hf

set_option maxRecDepth 1000000 in
theorem c6_required_attribute_check_witness :
    ((keywordOf "rect").getAttributeSpecs.find?
       (fun spec => spec.required &&
         !((([] : List AttributeNode).map AttributeNode.name).contains
           spec.name))).map AttributeSpec.name = some "size" ∧
    verifyAttributes (keywordOf "rect") [] ⟨1, 1⟩ =
      .error (.parseError "Attribute 'size' is required on <rect>"
        ⟨1, 1⟩) :=
  ⟨by with_unfolding_all rfl,
   (c6_required_attribute_check (keywordOf "rect") [] ⟨1, 1⟩).2.1 "size"
     (by with_unfolding_all rfl)⟩

set_option maxRecDepth 1000000 in
/-- C6 (counterexample): `size` is the only required attribute of `rect`,
and `rect { size: (10,10) }` compiles — so in
`rect { size: (10,10) "x" }` every required attribute is present with a
valid value, yet compilation fails (text content is not allowed in
`rect`), refuting "all required attributes present with valid values ⇒
compilation succeeds". -/
theorem c6_required_present_compile_still_fails :
    compile "rect { size: (10,10) }" =
      .ok "<rect width=\"10\" height=\"10\" />" ∧
    compile "rect \x7b size: (10,10) \"x\" \x7d" =
      .error (.parseError "Text content is not allowed inside <rect>"
        ⟨1, 16⟩) ∧
    ((keywordOf "rect").getAttributeSpecs.filter
      (fun spec => spec.required)).map AttributeSpec.name = ["size"] :=
  ⟨by with_unfolding_all rfl, by with_unfolding_all rfl,
   by with_unfolding_all rfl⟩

/-- C9: for an attribute whose spec type is `number`, the number
validator accepts any quoted string literal outright — the spec's numeric
`validator` is consulted only on number literals — and any value that is
neither a number literal nor a string literal is rejected with "expects a
numeric value"; at codegen, `normalizeNumberLike` passes the string
through unchanged, and end to end `circle \x7b r: "abc" \x7d` emits
`r="abc"` verbatim. -/
theorem c9_number_attribute_string_passthrough
    (context : AttributeValidationContext) (spec : AttributeSpec) :
    (∀ s p, validateNumber context spec (.stringLit s p) = .ok ()) ∧
    (∀ v : LiteralValue,
      (∀ n raw p, v ≠ .numberLit n raw p) →
      (∀ s p, v ≠ .stringLit s p) →
      validateNumber context spec v =
        failValidation context "expects a numeric value" v.position) ∧
    (∀ s p, normalizeNumberLike (.stringLit s p) = .ok (.str s)) ∧
    compile "circle \x7b r: \"abc\" \x7d" = .ok "<circle r=\"abc\" />" := by
  refine ⟨fun s p => rfl, fun v hn hs => ?_, fun s p => rfl,
    by with_unfolding_all rfl⟩
  match v with
  | .numberLit n raw p => exact absurd rfl (hn n raw p)
  | .stringLit s p => exact absurd rfl (hs s p)
  | .identifierLit name p => rfl
  | .tupleLit values p => rfl
  | .variableReference name p => rfl

/-- C9 witness: instantiating the rejection clause at an identifier
literal for the `r` attribute of `circle`. -/
theorem c9_number_attribute_string_passthrough_witness :
    validateNumber ⟨keywordOf "circle", "r"⟩
        ((keywordOf "circle").getAttributeSpecs.headD
          (numberAttr "r" false none))
        (.identifierLit "abc" ⟨1, 1⟩) =
      .error (.parseError
        "Attribute 'r' on <circle> expects a numeric value" ⟨1, 1⟩) := by
  have h := (c9_number_attribute_string_passthrough
      ⟨keywordOf "circle", "r"⟩
      ((keywordOf "circle").getAttributeSpecs.headD
        (numberAttr "r" false none))).2.1
    (.identifierLit "abc" ⟨1, 1⟩)
    (fun n raw p hc => LiteralValue.noConfusion hc)
    (fun s p hc => LiteralValue.noConfusion hc)
  rw [h]
  with_unfolding_all rfl

set_option maxRecDepth 1000000 in
/-- C8 (counterexample): the fusion check looks only at the *value* of
the following token, not its type — a NUMBER followed by a STRING token
whose text is a unit suffix is fused as well, so the fusion does not
fire "exactly" when an IDENTIFIER suffix follows: `animate \x7b dur: 2
"s" \x7d` still produces `dur="2s"`. -/
theorem c8_fusion_fires_on_non_identifier_token :
    fallThrough.run
        ⟨[⟨.NUMBER, "2", ⟨1, 1⟩⟩, ⟨.STRING, "s", ⟨1, 2⟩⟩,
          ⟨.EOF, "", ⟨1, 3⟩⟩], 0⟩ =
      .ok (some (.stringLit "2s" ⟨1, 1⟩),
        ⟨[⟨.NUMBER, "2", ⟨1, 1⟩⟩, ⟨.STRING, "s", ⟨1, 2⟩⟩,
          ⟨.EOF, "", ⟨1, 3⟩⟩], 2⟩) ∧
    Token.type ⟨.STRING, "s", ⟨1, 2⟩⟩ ≠ .IDENTIFIER ∧
    compile "animate \x7b dur: 2 \"s\" \x7d" = .ok "<animate dur=\"2s\" />" :=
  ⟨by with_unfolding_all rfl, by decide, by with_unfolding_all rfl⟩

/-- C8 (amended): with a NUMBER token at the cursor, `fallThrough` fuses
it with the *next token's value* exactly when that value, lowercased, is
a CSS unit suffix (the next token's type is never inspected); when the
suffix test fails and the number's text is not a CSS exception, the
parser state is left untouched and no synthetic literal is produced. -/
theorem c8_fusion_condition (st : PSt)
    (h : (st.peekTok 0).type = .NUMBER) :
    (CSS_UNIT_SUFFIXES.contains (toLowerStr (st.peekTok 1).value) =
        true →
      fallThrough.run st =
        .ok (some (.stringLit
            ((st.peekTok 0).value ++ (st.peekTok 1).value)
            (st.peekTok 0).position),
          stAdvance (stAdvance st))) ∧
    (CSS_UNIT_SUFFIXES.contains (toLowerStr (st.peekTok 1).value) =
        false →
      isCssException (st.peekTok 0).value = false →
      fallThrough.run st = .ok (none, st)) := by
  constructor
  · intro hc
    unfold fallThrough
    simp only [StateT.run, bind, StateT.bind, peekP, pure, StateT.pure,
      Except.pure, get, getThe, MonadStateOf.get, StateT.get, Except.bind]
    rw [if_pos ⟨h, hc⟩]
    with_unfolding_all rfl
  · intro hc hexc
    unfold fallThrough
    simp only [StateT.run, bind, StateT.bind, peekP, pure, StateT.pure,
      Except.pure, get, getThe, MonadStateOf.get, StateT.get, Except.bind]
    rw [if_neg, if_neg]
    · with_unfolding_all rfl
    · intro h2
      rw [hexc] at h2
      exact Bool.false_ne_true h2
    · intro h2
      rw [hc] at h2
      exact Bool.false_ne_true h2.2

set_option maxRecDepth 1000000 in
/-- C8 witness: `5` followed by the IDENTIFIER `px` fuses into the
string literal `5px`, consuming both tokens. -/
theorem c8_fusion_condition_witness :
    fallThrough.run
        ⟨[⟨.NUMBER, "5", ⟨1, 1⟩⟩, ⟨.IDENTIFIER, "px", ⟨1, 2⟩⟩,
          ⟨.EOF, "", ⟨1, 3⟩⟩], 0⟩ =
      .ok (some (.stringLit "5px" ⟨1, 1⟩),
        ⟨[⟨.NUMBER, "5", ⟨1, 1⟩⟩, ⟨.IDENTIFIER, "px", ⟨1, 2⟩⟩,
          ⟨.EOF, "", ⟨1, 3⟩⟩], 2⟩) := by
  have h := (c8_fusion_condition
      ⟨[⟨.NUMBER, "5", ⟨1, 1⟩⟩, ⟨.IDENTIFIER, "px", ⟨1, 2⟩⟩,
        ⟨.EOF, "", ⟨1, 3⟩⟩], 0⟩
      (by with_unfolding_all rfl)).1 (by with_unfolding_all rfl)
  rw [h]
  with_unfolding_all rfl

set_option maxRecDepth 1000000 in
/-- C10 (counterexample): a document that declares the variable it uses
still fails — but at parse time with "Unknown element <vars>", not with
the claimed codegen error, so not *every* document whose directive
bodies mention `$color` fails with "Variable '$color' is not
defined". -/
theorem c10_vars_document_fails_before_codegen :
    compile
        "vars \x7b color: \"red\" \x7d circle \x7b r: 1 @hover \x7b color: $color \x7d \x7d" =
      .error (.parseError "Unknown element <vars>" ⟨1, 1⟩) ∧
    (Except.error (CompileError.parseError "Unknown element <vars>"
        ⟨1, 1⟩) ≠
      (Except.error (CompileError.codegenError
        "Variable '$color' is not defined") :
          Except CompileError String)) :=
  ⟨by with_unfolding_all rfl,
   fun hc => CompileError.noConfusion (Except.error.inj hc)⟩

set_option maxRecDepth 1000000 in
/-- C10 (amended): the variable context used by `compileAst` is
`buildVariableContext none`, which is empty; with an empty context,
resolving any text in which the `$name` pattern matches aborts with
"Variable '$name' is not defined", and a document that *parses* and has
such a directive body indeed fails that way end to end. -/
theorem c10_empty_variable_context (text : String)
    (pre name post : List Char)
    (hm : findVarMatch text.data = some (pre, name, post)) :
    buildVariableContext none = [] ∧
    resolveVariablesInText text [] =
      .error (.codegenError
        ("Variable '$" ++ String.mk name ++ "' is not defined")) ∧
    compile "circle { r: 1 @hover { color: $color } }" =
      .error (.codegenError "Variable '$color' is not defined") := by
  refine ⟨rfl, ?_, by with_unfolding_all rfl⟩
  have hl : resolveVariablesInTextLoop [] (text.length + 1) [] text.data =
      .error (.codegenError
        ("Variable '$" ++ String.mk name ++ "' is not defined")) := by
    simp only [resolveVariablesInTextLoop]
    rw [hm]
    rfl
  simp only [resolveVariablesInText, hl]
  rfl

set_option maxRecDepth 1000000 in
/-- C10 witness: instantiating at the text `color: $color`, whose
variable match captures `color`. -/
theorem c10_empty_variable_context_witness :
    findVarMatch ("color: $color").data =
      some ("color: ".data, "color".data, []) ∧
    resolveVariablesInText "color: $color" [] =
      .error (.codegenError "Variable '$color' is not defined") :=
  ⟨by with_unfolding_all rfl,
   (c10_empty_variable_context "color: $color" ("color: ".data)
      ("color".data) [] (by with_unfolding_all rfl)).2.1⟩

end Mirrow


